import Mathlib

/-!
Backend surface handles (`src/gpu/ganesh/GrBackendSurface.cpp`).

A shallow embedding of the three handle value types of the file,
`GrBackendFormat`, `GrBackendTexture` and `GrBackendRenderTarget`, and of the
operations defined on them.

Conventions of the embedding.

* A member function becomes a function of the object (`this`) and its
  arguments; a `const` member returns its result only, a constructor returns
  the object it builds.
* A call that can end the process (`SK_ABORT`, a failed `SkASSERT` in a debug
  build) or that dereferences an empty payload holder (`fFormatData->...` when
  nothing is held) returns `Except.error`; everything else returns
  `Except.ok`.
* The two build switches the file tests with `#ifdef` (`SK_DIRECT3D`,
  `SK_DEBUG`) are the fields of `Build`.
* The polymorphic payload (`GrBackendFormatData`, `GrBackendTextureData`,
  `GrBackendRenderTargetData`) is an abstract type together with a record of
  its virtual member functions.
* Enumerations, lookup tables and info structs that are declared in headers
  outside this file are kept abstract: only the enumerators the file names are
  constructors, the rest is `other code`.
* The shared Direct3D resource-state tokens live in a token memory, `D3DHeap`,
  that the functions touching them take and return; a token pointer is an
  address in it.
* The test `this == &that` of the assignment operators is the argument
  `sameObject`.
* The members of type `int` are integers; the one conversion from
  `unsigned int` to `int` the file performs is `toInt32`.
-/

namespace GrBackendSurface

/-! ## Enumerations -/

/-- The backend tag `GrBackendApi`; all six enumerators are named in the file. -/
inductive GrBackendApi
  | kOpenGL
  | kVulkan
  | kMetal
  | kDirect3D
  | kMock
  | kUnsupported
  deriving DecidableEq, Repr

/-- The enumeration `GrColorType`: the file names `kUnknown` only, any other
enumerator is `other code`. -/
inductive GrColorType
  | kUnknown
  | other (code : Nat)
  deriving DecidableEq, Repr

/-- The enumeration `SkTextureCompressionType`: the file names `kNone` only. -/
inductive SkTextureCompressionType
  | kNone
  | other (code : Nat)
  deriving DecidableEq, Repr

/-- The enumeration `GrTextureType`: the file names `k2D` only. -/
inductive GrTextureType
  | k2D
  | other (code : Nat)
  deriving DecidableEq, Repr

/-- The ways a call can fail to return a value. -/
inductive Fault
  /-- An `SK_ABORT`, or an `SkASSERT` that fails in a debug build. -/
  | abort
  /-- An `operator->` on a payload holder that holds nothing. -/
  | nullDeref
  deriving DecidableEq, Repr

/-- The preprocessor switches the file tests. -/
structure Build where
  SK_DIRECT3D : Bool
  SK_DEBUG : Bool
  deriving DecidableEq, Repr

/-- The macro `SkASSERT(cond)` followed by the rest of the function, `k`: the
condition is checked in debug builds only (`validateMock`, which every
`SkASSERT` of the file calls, exists under `#ifdef SK_DEBUG` only). -/
def SkASSERT {α : Type} (cfg : Build) (cond : Bool) (k : Except Fault α) : Except Fault α :=
  if cfg.SK_DEBUG && !cond then .error .abort else k

/-! ## `GrBackendFormat` -/

/-- The anonymous struct `fMock` of `GrBackendFormat`. -/
structure MockFormat where
  fColorType : GrColorType
  fCompressionType : SkTextureCompressionType
  fIsStencilFormat : Bool
  deriving DecidableEq, Repr

/-- The data members of `GrBackendFormat`. `fFormatData` is the payload holder
(`none` when it holds nothing); `fDxgiFormat` is the `DXGI_FORMAT` code. The
class keeps `fDxgiFormat` and `fMock` in a union: here they are two fields, and
only the one selected by `fBackend` is ever read by the functions below. -/
structure GrBackendFormat (P : Type) where
  fBackend : GrBackendApi
  fValid : Bool
  fFormatData : Option P
  fDxgiFormat : Nat
  fMock : MockFormat
  fTextureType : GrTextureType
  deriving DecidableEq, Repr

/-- The virtual member functions of the payload class `GrBackendFormatData`
that the file calls, over payloads `P` and format descriptors `D`.
`copyTo p` is the payload that `p->copyTo(dest)` leaves in `dest`;
`equal p q` is `p->equal(q)` with `q` the (possibly null) pointer passed;
`makeTexture2D p` is the payload after the in-place `p->makeTexture2D()`. -/
structure GrBackendFormatData (P D : Type) where
  copyTo : P → P
  equal : P → Option P → Bool
  channelMask : P → Nat
  desc : P → D
  makeTexture2D : P → P

/-- The lookup functions on inline format fields, defined outside the file,
and `GrColorFormatDesc::MakeInvalid()`, over format descriptors `D`. -/
structure FormatTables (D : Type) where
  GrColorTypeChannelFlags : GrColorType → Nat
  GrGetColorTypeDesc : GrColorType → D
  GrDxgiFormatChannels : Nat → Nat
  GrDxgiFormatDesc : Nat → D
  MakeInvalid : D

namespace GrBackendFormat

variable {P D : Type}

/-- The inline accessor `isValid()`. -/
def isValid (this : GrBackendFormat P) : Bool := this.fValid

/-- The inline accessor `backend()`. -/
def backend (this : GrBackendFormat P) : GrBackendApi := this.fBackend

/-- The inline accessor `textureType()`. -/
def textureType (this : GrBackendFormat P) : GrTextureType := this.fTextureType

/-- The default constructor `GrBackendFormat() : fValid(false) {}`. The members the
constructor does not name keep what their declaration (outside the file) gives
them, taken from `raw`; the payload holder starts empty. -/
def ctorDefault (raw : GrBackendFormat P) : GrBackendFormat P :=
  { raw with fValid := false, fFormatData := none }

/-- The copy constructor `GrBackendFormat(const GrBackendFormat& that)`. The
members it does not write keep the content of the storage, `raw`. -/
def copy (cfg : Build) (ops : GrBackendFormatData P D) (raw that : GrBackendFormat P) :
    Except Fault (GrBackendFormat P) :=
  let this : GrBackendFormat P :=
    { raw with fBackend := that.fBackend, fValid := that.fValid,
               fTextureType := that.fTextureType, fFormatData := none }
  if !this.fValid then .ok this
  else
    match this.fBackend with
    | .kOpenGL | .kVulkan | .kMetal =>
      match that.fFormatData with
      | none => .error .nullDeref
      | some p => .ok { this with fFormatData := some (ops.copyTo p) }
    | .kDirect3D =>
      if cfg.SK_DIRECT3D then .ok { this with fDxgiFormat := that.fDxgiFormat }
      else .error .abort
    | .kMock => .ok { this with fMock := that.fMock }
    | .kUnsupported => .error .abort

/-- The Direct3D constructor `GrBackendFormat(DXGI_FORMAT dxgiFormat)`
(compiled under `SK_DIRECT3D`). -/
def ctorDxgi (raw : GrBackendFormat P) (dxgiFormat : Nat) : GrBackendFormat P :=
  { raw with fBackend := .kDirect3D, fValid := true, fDxgiFormat := dxgiFormat,
             fTextureType := .k2D, fFormatData := none }

/-- The member `GrBackendFormat::validateMock()` (compiled under `SK_DEBUG`). -/
def validateMock (this : GrBackendFormat P) : Bool :=
  let trueStates : Nat := 0
  let trueStates :=
    if this.fMock.fCompressionType ≠ SkTextureCompressionType.kNone then trueStates + 1
    else trueStates
  let trueStates :=
    if this.fMock.fColorType ≠ GrColorType.kUnknown then trueStates + 1 else trueStates
  let trueStates := if this.fMock.fIsStencilFormat then trueStates + 1 else trueStates
  trueStates == 1

/-- The Mock constructor
`GrBackendFormat(GrColorType, SkTextureCompressionType, bool)`. -/
def ctorMock (cfg : Build) (raw : GrBackendFormat P) (colorType : GrColorType)
    (compression : SkTextureCompressionType) (isStencilFormat : Bool) :
    Except Fault (GrBackendFormat P) :=
  let this : GrBackendFormat P :=
    { raw with fBackend := .kMock, fValid := true, fTextureType := .k2D, fFormatData := none,
               fMock := { fColorType := colorType, fCompressionType := compression,
                          fIsStencilFormat := isStencilFormat } }
  SkASSERT cfg this.validateMock (.ok this)

/-- The factory `GrBackendFormat::MakeMock`. -/
def MakeMock (cfg : Build) (raw : GrBackendFormat P) (colorType : GrColorType)
    (compression : SkTextureCompressionType) (isStencilFormat : Bool) :
    Except Fault (GrBackendFormat P) :=
  ctorMock cfg raw colorType compression isStencilFormat

/-- The member `GrBackendFormat::channelMask()`. -/
def channelMask (cfg : Build) (tbl : FormatTables D) (ops : GrBackendFormatData P D)
    (this : GrBackendFormat P) : Except Fault Nat :=
  if !this.isValid then .ok 0
  else
    match this.fBackend with
    | .kOpenGL | .kVulkan | .kMetal =>
      match this.fFormatData with
      | none => .error .nullDeref
      | some p => .ok (ops.channelMask p)
    | .kDirect3D =>
      if cfg.SK_DIRECT3D then .ok (tbl.GrDxgiFormatChannels this.fDxgiFormat) else .ok 0
    | .kMock => .ok (tbl.GrColorTypeChannelFlags this.fMock.fColorType)
    | .kUnsupported => .ok 0

/-- The member `GrBackendFormat::desc()`. -/
def desc (cfg : Build) (tbl : FormatTables D) (ops : GrBackendFormatData P D)
    (this : GrBackendFormat P) : Except Fault D :=
  if !this.isValid then .ok tbl.MakeInvalid
  else
    match this.fBackend with
    | .kOpenGL | .kVulkan | .kMetal =>
      match this.fFormatData with
      | none => .error .nullDeref
      | some p => .ok (ops.desc p)
    | .kDirect3D =>
      if cfg.SK_DIRECT3D then .ok (tbl.GrDxgiFormatDesc this.fDxgiFormat)
      else .ok tbl.MakeInvalid
    | .kMock => .ok (tbl.GrGetColorTypeDesc this.fMock.fColorType)
    | .kUnsupported => .ok tbl.MakeInvalid

/-- The member `GrBackendFormat::asMockColorType()`. -/
def asMockColorType (cfg : Build) (this : GrBackendFormat P) : Except Fault GrColorType :=
  if this.isValid && GrBackendApi.kMock == this.fBackend then
    SkASSERT cfg this.validateMock (.ok this.fMock.fColorType)
  else .ok GrColorType.kUnknown

/-- The member `GrBackendFormat::asMockCompressionType()`. -/
def asMockCompressionType (cfg : Build) (this : GrBackendFormat P) :
    Except Fault SkTextureCompressionType :=
  if this.isValid && GrBackendApi.kMock == this.fBackend then
    SkASSERT cfg this.validateMock (.ok this.fMock.fCompressionType)
  else .ok SkTextureCompressionType.kNone

/-- The member `GrBackendFormat::isMockStencilFormat()`. -/
def isMockStencilFormat (cfg : Build) (this : GrBackendFormat P) : Except Fault Bool :=
  if this.isValid && GrBackendApi.kMock == this.fBackend then
    SkASSERT cfg this.validateMock (.ok this.fMock.fIsStencilFormat)
  else .ok false

/-- The member `GrBackendFormat::makeTexture2D()`: the returned `copy`. -/
def makeTexture2D (cfg : Build) (ops : GrBackendFormatData P D) (raw this : GrBackendFormat P) :
    Except Fault (GrBackendFormat P) :=
  match copy cfg ops raw this with
  | .error e => .error e
  | .ok copy =>
    if this.fBackend = GrBackendApi.kVulkan then
      match copy.fFormatData with
      | none => .error .nullDeref
      | some p =>
        .ok { copy with fFormatData := some (ops.makeTexture2D p), fTextureType := .k2D }
    else .ok { copy with fTextureType := .k2D }

/-- The member `GrBackendFormat::operator==`. -/
def operator_eq (cfg : Build) (ops : GrBackendFormatData P D) (this that : GrBackendFormat P) :
    Except Fault Bool :=
  if !this.fValid || !that.fValid then .ok false
  else if this.fBackend ≠ that.fBackend then .ok false
  else
    match this.fBackend with
    | .kOpenGL | .kVulkan | .kMetal =>
      match this.fFormatData with
      | none => .error .nullDeref
      | some p => .ok (ops.equal p that.fFormatData)
    | .kMock =>
      .ok (this.fMock.fColorType == that.fMock.fColorType &&
           this.fMock.fCompressionType == that.fMock.fCompressionType)
    | .kDirect3D =>
      if cfg.SK_DIRECT3D then .ok (this.fDxgiFormat == that.fDxgiFormat) else .error .abort
    | .kUnsupported => .error .abort

end GrBackendFormat

/-! ## `GrBackendTexture` and `GrBackendRenderTarget` -/

/-- Modelled from the spec: the struct `GrMockTextureInfo` is declared outside
the file. The spec gives the inline Mock info of a texture an id ("Mock id
equality"), a protected flag ("Mock (via inline flag)") and the format fields
a backend format is derived from. -/
structure GrMockTextureInfo where
  fColorType : GrColorType
  fCompressionType : SkTextureCompressionType
  fID : Int
  fProtected : Bool
  deriving DecidableEq, Repr

/-- Modelled from the spec: `GrMockTextureInfo::isProtected()`, the inline
protected flag. -/
def GrMockTextureInfo.isProtected (m : GrMockTextureInfo) : Bool := m.fProtected

/-- Modelled from the spec: the struct `GrMockRenderTargetInfo` is declared
outside the file; the render-target sibling of `GrMockTextureInfo`, with no
compression type. -/
structure GrMockRenderTargetInfo where
  fColorType : GrColorType
  fID : Int
  fProtected : Bool
  deriving DecidableEq, Repr

/-- Modelled from the spec: `GrMockRenderTargetInfo::isProtected()`, the inline
protected flag. -/
def GrMockRenderTargetInfo.isProtected (m : GrMockRenderTargetInfo) : Bool := m.fProtected

/-- The members of `GrD3DTextureResourceInfo` the file reads: the resource
pointer, the initial resource state, the format code, sample and level
counts. -/
structure GrD3DTextureResourceInfo where
  fResource : Nat
  fResourceState : Nat
  fFormat : Nat
  fSampleCount : Nat
  fLevelCount : Nat
  deriving DecidableEq, Repr

/-- The inline Direct3D member `fD3DInfo`: the resource info and the address of
the shared resource-state token it was built with. -/
structure GrD3DBackendSurfaceInfo where
  fTextureResourceInfo : GrD3DTextureResourceInfo
  fResourceState : Option Nat
  deriving DecidableEq, Repr

/-- The data members of `GrBackendTexture`, over texture payloads `T`. -/
structure GrBackendTexture (T : Type) where
  fIsValid : Bool
  fWidth : Int
  fHeight : Int
  fLabel : String
  fMipmapped : Bool
  fBackend : GrBackendApi
  fTextureType : GrTextureType
  fTextureData : Option T
  fD3DInfo : GrD3DBackendSurfaceInfo
  fMockInfo : GrMockTextureInfo
  deriving DecidableEq, Repr

/-- The data members of `GrBackendRenderTarget`, over render-target payloads
`R`. -/
structure GrBackendRenderTarget (R : Type) where
  fIsValid : Bool
  fWidth : Int
  fHeight : Int
  fSampleCnt : Int
  fStencilBits : Int
  fBackend : GrBackendApi
  fRTData : Option R
  fD3DInfo : GrD3DBackendSurfaceInfo
  fMockInfo : GrMockRenderTargetInfo
  deriving DecidableEq, Repr

/-- The virtual member `isProtected()` of the payload classes
`GrBackendTextureData` and `GrBackendRenderTargetData`, over payloads `T`. -/
structure ProtectedQuery (T : Type) where
  isProtected : T → Bool

namespace GrBackendTexture

variable {T : Type}

/-- The inline accessor `isValid()`. -/
def isValid (this : GrBackendTexture T) : Bool := this.fIsValid

/-- The inline accessor `backend()`. -/
def backend (this : GrBackendTexture T) : GrBackendApi := this.fBackend

/-- The member `GrBackendTexture::isProtected()`. -/
def isProtected (ops : ProtectedQuery T) (this : GrBackendTexture T) : Except Fault Bool :=
  if !this.isValid then .ok false
  else if this.backend = GrBackendApi.kOpenGL || this.backend = GrBackendApi.kVulkan then
    match this.fTextureData with
    | none => .error .nullDeref
    | some p => .ok (ops.isProtected p)
  else if this.backend = GrBackendApi.kMock then .ok this.fMockInfo.isProtected
  else .ok false

end GrBackendTexture

namespace GrBackendRenderTarget

variable {R : Type}

/-- The inline accessor `isValid()`. -/
def isValid (this : GrBackendRenderTarget R) : Bool := this.fIsValid

/-- The inline accessor `backend()`. -/
def backend (this : GrBackendRenderTarget R) : GrBackendApi := this.fBackend

/-- The member `GrBackendRenderTarget::isProtected()`. -/
def isProtected (ops : ProtectedQuery R) (this : GrBackendRenderTarget R) : Except Fault Bool :=
  if !this.isValid then .ok false
  else if this.backend = GrBackendApi.kOpenGL || this.backend = GrBackendApi.kVulkan then
    match this.fRTData with
    | none => .error .nullDeref
    | some p => .ok (ops.isProtected p)
  else if this.backend = GrBackendApi.kMock then .ok this.fMockInfo.isProtected
  else .ok false

end GrBackendRenderTarget

/-! ## Direct3D resource-state tokens -/

/-- Modelled from the spec: the class `GrD3DResourceState` is declared outside
the file. The spec describes a shared, reference-counted mutable resource-state
token: a cell with the current resource state and a reference count. -/
structure GrD3DResourceState where
  fResourceState : Nat
  fRefCnt : Nat
  deriving DecidableEq, Repr

/-- Modelled from the spec: the memory the tokens live in. `cells a` is the
token at address `a`, when one was allocated there; `next` is the address the
next allocation returns. -/
structure D3DHeap where
  cells : Nat → Option GrD3DResourceState
  next : Nat

namespace D3DHeap

/-- Modelled from the spec: `new GrD3DResourceState(state)`, a fresh token that
wraps `state` and is referenced once. Returns its address. -/
def alloc (h : D3DHeap) (state : Nat) : Nat × D3DHeap :=
  (h.next,
   { cells := fun a => if a = h.next then some { fResourceState := state, fRefCnt := 1 }
                       else h.cells a,
     next := h.next + 1 })

/-- The heap after the token at `a`, when there is one, is replaced by `f` of
it. -/
def modify (h : D3DHeap) (a : Nat) (f : GrD3DResourceState → GrD3DResourceState) : D3DHeap :=
  { h with cells := fun x => if x = a then (h.cells a).map f else h.cells x }

/-- Modelled from the spec: `SkSafeRef(p)`, one more reference to the token `p`
points to; nothing for a null pointer. -/
def safeRef (h : D3DHeap) (p : Option Nat) : D3DHeap :=
  match p with
  | none => h
  | some a => h.modify a (fun c => { c with fRefCnt := c.fRefCnt + 1 })

/-- Modelled from the spec: `SkSafeUnref(p)`, one reference fewer to the token
`p` points to; nothing for a null pointer. -/
def safeUnref (h : D3DHeap) (p : Option Nat) : D3DHeap :=
  match p with
  | none => h
  | some a => h.modify a (fun c => { c with fRefCnt := c.fRefCnt - 1 })

/-- Every allocated token lies below `next`. -/
def WellFormed (h : D3DHeap) : Prop :=
  ∀ a c, h.cells a = some c → a < h.next

end D3DHeap

namespace GrD3DBackendSurfaceInfo

/-- Modelled from the spec: `GrD3DResourceState::getResourceState()` through
the token pointer of the info. A pointer that is null or designates no token
cannot be read. -/
def readState (this : GrD3DBackendSurfaceInfo) (h : D3DHeap) : Except Fault Nat :=
  match this.fResourceState with
  | none => .error .nullDeref
  | some a =>
    match h.cells a with
    | none => .error .nullDeref
    | some c => .ok c.fResourceState

/-- Modelled from the spec: `GrD3DBackendSurfaceInfo::snapTextureResourceInfo()`,
the stored resource info with the current state of the shared token as its
resource state. -/
def snapTextureResourceInfo (this : GrD3DBackendSurfaceInfo) (h : D3DHeap) :
    Except Fault GrD3DTextureResourceInfo :=
  match this.readState h with
  | .error e => .error e
  | .ok s => .ok { this.fTextureResourceInfo with fResourceState := s }

/-- Modelled from the spec: `GrD3DBackendSurfaceInfo::setResourceState(state)`,
which writes `state` into the shared token. -/
def setResourceState (this : GrD3DBackendSurfaceInfo) (h : D3DHeap) (state : Nat) :
    Except Fault D3DHeap :=
  match this.fResourceState with
  | none => .error .nullDeref
  | some a =>
    match h.cells a with
    | none => .error .nullDeref
    | some _ => .ok (h.modify a (fun c => { c with fResourceState := state }))

/-- Modelled from the spec: `GrD3DBackendSurfaceInfo::getGrD3DResourceState()`,
a new reference to the shared token. -/
def getGrD3DResourceState (this : GrD3DBackendSurfaceInfo) (h : D3DHeap) : Option Nat × D3DHeap :=
  (this.fResourceState, h.safeRef this.fResourceState)

/-- Modelled from the spec: `GrD3DBackendSurfaceInfo::cleanup()`, which gives up
the reference to the shared token. -/
def cleanup (this : GrD3DBackendSurfaceInfo) (h : D3DHeap) : GrD3DBackendSurfaceInfo × D3DHeap :=
  ({ this with fResourceState := none }, h.safeUnref this.fResourceState)

/-- Modelled from the spec: `GrD3DBackendSurfaceInfo::assign(that, isThisValid)`.
The resource info is copied and the token of `that` is shared (one more
reference to it); the token held before is released when `isThisValid`. -/
def assign (this : GrD3DBackendSurfaceInfo) (h : D3DHeap) (that : GrD3DBackendSurfaceInfo)
    (isThisValid : Bool) : GrD3DBackendSurfaceInfo × D3DHeap :=
  let oldState := this.fResourceState
  let h := h.safeRef that.fResourceState
  let h := if isThisValid then h.safeUnref oldState else h
  ({ fTextureResourceInfo := that.fTextureResourceInfo, fResourceState := that.fResourceState }, h)

end GrD3DBackendSurfaceInfo

/-- The conversion of an `unsigned int` value to `int` (both 32 bits wide). -/
def toInt32 (u : Nat) : Int :=
  if u % 2 ^ 32 < 2 ^ 31 then ((u % 2 ^ 32 : Nat) : Int) else ((u % 2 ^ 32 : Nat) : Int) - 2 ^ 32

/-! ## Operations on `GrBackendTexture` -/

/-- Modelled from the spec: `GrMockTextureInfo::id()`, the id of the inline
Mock info. -/
def GrMockTextureInfo.id (m : GrMockTextureInfo) : Int := m.fID

/-- Modelled from the spec: `GrMockTextureInfo::getBackendFormat()`, the Mock
format derived from the stored color type and compression type. -/
def GrMockTextureInfo.getBackendFormat {P : Type} (cfg : Build) (raw : GrBackendFormat P)
    (m : GrMockTextureInfo) : Except Fault (GrBackendFormat P) :=
  GrBackendFormat.MakeMock cfg raw m.fColorType m.fCompressionType false

/-- Modelled from the spec: `GrMockRenderTargetInfo::getBackendFormat()`, the
Mock format derived from the stored color type. -/
def GrMockRenderTargetInfo.getBackendFormat {P : Type} (cfg : Build) (raw : GrBackendFormat P)
    (m : GrMockRenderTargetInfo) : Except Fault (GrBackendFormat P) :=
  GrBackendFormat.MakeMock cfg raw m.fColorType SkTextureCompressionType.kNone false

/-- The virtual member functions of the payload class `GrBackendTextureData`
that the file calls besides `isProtected()`, over payloads `T`, format payloads
`P` and mutable states `S`. `copyTo p` is the payload `p->copyTo(dest)` leaves
in `dest`; `equal p q` and `isSameTexture p q` take the (possibly null) pointer
`q`; `setMutableState p s` is the payload after the in-place call. -/
structure GrBackendTextureData (T P S : Type) where
  copyTo : T → T
  equal : T → Option T → Bool
  isSameTexture : T → Option T → Bool
  getBackendFormat : T → GrBackendFormat P
  getMutableState : T → S
  setMutableState : T → S → T

namespace GrBackendTexture

variable {T P S : Type}

/-- The default constructor `GrBackendTexture() : fIsValid(false) {}`. The
members it does not name keep what `raw` holds; the payload holder and the
label start empty. -/
def ctorDefault (raw : GrBackendTexture T) : GrBackendTexture T :=
  { raw with fIsValid := false, fTextureData := none, fLabel := "" }

/-- The Direct3D constructor that takes the shared state token `state`
(compiled under `SK_DIRECT3D`). -/
def ctorD3D (raw : GrBackendTexture T) (width height : Int) (d3dInfo : GrD3DTextureResourceInfo)
    (state : Option Nat) (label : String) : GrBackendTexture T :=
  { raw with fIsValid := true, fWidth := width, fHeight := height, fLabel := label,
             fMipmapped := decide (d3dInfo.fLevelCount > 1),
             fBackend := GrBackendApi.kDirect3D, fTextureType := GrTextureType.k2D,
             fTextureData := none,
             fD3DInfo := { fTextureResourceInfo := d3dInfo, fResourceState := state } }

/-- The Direct3D constructor without a token (compiled under `SK_DIRECT3D`): it
allocates a fresh token that wraps `d3dInfo.fResourceState` and delegates. -/
def ctorD3DFresh (h : D3DHeap) (raw : GrBackendTexture T) (width height : Int)
    (d3dInfo : GrD3DTextureResourceInfo) (label : String) : GrBackendTexture T × D3DHeap :=
  (ctorD3D raw width height d3dInfo (some (h.alloc d3dInfo.fResourceState).1) label,
   (h.alloc d3dInfo.fResourceState).2)

/-- The Mock constructor
`GrBackendTexture(int, int, skgpu::Mipmapped, const GrMockTextureInfo&, std::string_view)`. -/
def ctorMock (raw : GrBackendTexture T) (width height : Int) (mipmapped : Bool)
    (mockInfo : GrMockTextureInfo) (label : String) : GrBackendTexture T :=
  { raw with fIsValid := true, fWidth := width, fHeight := height, fLabel := label,
             fMipmapped := mipmapped, fBackend := GrBackendApi.kMock,
             fTextureType := GrTextureType.k2D, fTextureData := none, fMockInfo := mockInfo }

/-- The member `GrBackendTexture::cleanup()`. -/
def cleanup (cfg : Build) (h : D3DHeap) (this : GrBackendTexture T) :
    GrBackendTexture T × D3DHeap :=
  let this : GrBackendTexture T := { this with fTextureData := none }
  if cfg.SK_DIRECT3D && (this.isValid && GrBackendApi.kDirect3D == this.fBackend) then
    ({ this with fD3DInfo := (this.fD3DInfo.cleanup h).1 }, (this.fD3DInfo.cleanup h).2)
  else (this, h)

/-- The branch `else if (fIsValid && this->fBackend != that.fBackend)` of
`GrBackendTexture::operator=`: an object that is valid with another backend is
cleaned up and marked invalid before it takes the members of `that`. -/
def releaseOnBackendChange (cfg : Build) (h : D3DHeap) (this that : GrBackendTexture T) :
    GrBackendTexture T × D3DHeap :=
  if this.fIsValid && this.fBackend != that.fBackend then
    ({ (cleanup cfg h this).1 with fIsValid := false }, (cleanup cfg h this).2)
  else (this, h)

/-- The member `GrBackendTexture::operator=`. `sameObject` says whether `that`
is the object assigned to (`this == &that`). Returns the object after the
assignment and the token memory. -/
def operator_assign (cfg : Build) (ops : GrBackendTextureData T P S) (h : D3DHeap)
    (sameObject : Bool) (this that : GrBackendTexture T) :
    Except Fault (GrBackendTexture T × D3DHeap) :=
  if sameObject then .ok (this, h)
  else if !that.isValid then
    .ok ({ (cleanup cfg h this).1 with fIsValid := false }, (cleanup cfg h this).2)
  else
    let st : GrBackendTexture T × D3DHeap := releaseOnBackendChange cfg h this that
    let this : GrBackendTexture T :=
      { st.1 with fWidth := that.fWidth, fHeight := that.fHeight, fMipmapped := that.fMipmapped,
                  fBackend := that.fBackend, fTextureType := that.fTextureType }
    match that.fBackend with
    | .kOpenGL | .kVulkan | .kMetal =>
      match that.fTextureData with
      | none => .error .nullDeref
      | some p => .ok ({ this with fTextureData := some (ops.copyTo p), fIsValid := true }, st.2)
    | .kDirect3D =>
      if cfg.SK_DIRECT3D then
        .ok ({ this with fD3DInfo := (this.fD3DInfo.assign st.2 that.fD3DInfo this.isValid).1,
                         fIsValid := true },
             (this.fD3DInfo.assign st.2 that.fD3DInfo this.isValid).2)
      else .error .abort
    | .kMock => .ok ({ this with fMockInfo := that.fMockInfo, fIsValid := true }, st.2)
    | .kUnsupported => .error .abort

/-- The copy constructor `GrBackendTexture(const GrBackendTexture& that)`: the
new object starts invalid, with an empty payload holder and an empty label, and
is assigned `that`. -/
def copy (cfg : Build) (ops : GrBackendTextureData T P S) (h : D3DHeap)
    (raw that : GrBackendTexture T) : Except Fault (GrBackendTexture T × D3DHeap) :=
  operator_assign cfg ops h false
    { raw with fIsValid := false, fTextureData := none, fLabel := "" } that

/-- The member `GrBackendTexture::getMutableState()`. -/
def getMutableState (ops : GrBackendTextureData T P S) (this : GrBackendTexture T) :
    Except Fault S :=
  match this.fTextureData with
  | none => .error .nullDeref
  | some p => .ok (ops.getMutableState p)

/-- The member `GrBackendTexture::setMutableState(state)`: the object after the
call. -/
def setMutableState (ops : GrBackendTextureData T P S) (this : GrBackendTexture T) (state : S) :
    Except Fault (GrBackendTexture T) :=
  match this.fTextureData with
  | none => .error .nullDeref
  | some p => .ok { this with fTextureData := some (ops.setMutableState p state) }

/-- The member `GrBackendTexture::getD3DTextureResourceInfo(outInfo)` (compiled
under `SK_DIRECT3D`): the returned flag and the content of `*outInfo` after the
call. -/
def getD3DTextureResourceInfo (h : D3DHeap) (this : GrBackendTexture T)
    (outInfo : GrD3DTextureResourceInfo) : Except Fault (Bool × GrD3DTextureResourceInfo) :=
  if this.isValid && GrBackendApi.kDirect3D == this.fBackend then
    match this.fD3DInfo.snapTextureResourceInfo h with
    | .error e => .error e
    | .ok info => .ok (true, info)
  else .ok (false, outInfo)

/-- The member `GrBackendTexture::setD3DResourceState(state)` (compiled under
`SK_DIRECT3D`): the token memory after the call. -/
def setD3DResourceState (h : D3DHeap) (this : GrBackendTexture T) (state : Nat) :
    Except Fault D3DHeap :=
  if this.isValid && GrBackendApi.kDirect3D == this.fBackend then
    this.fD3DInfo.setResourceState h state
  else .ok h

/-- The member `GrBackendTexture::getGrD3DResourceState()` (compiled under
`SK_DIRECT3D`): the returned token pointer and the token memory. -/
def getGrD3DResourceState (h : D3DHeap) (this : GrBackendTexture T) : Option Nat × D3DHeap :=
  if this.isValid && GrBackendApi.kDirect3D == this.fBackend then
    this.fD3DInfo.getGrD3DResourceState h
  else (none, h)

/-- The member `GrBackendTexture::getMockTextureInfo(outInfo)`: the returned
flag and the content of `*outInfo` after the call. -/
def getMockTextureInfo (this : GrBackendTexture T) (outInfo : GrMockTextureInfo) :
    Bool × GrMockTextureInfo :=
  if this.isValid && GrBackendApi.kMock == this.fBackend then (true, this.fMockInfo)
  else (false, outInfo)

/-- The member `GrBackendTexture::isSameTexture(that)`. -/
def isSameTexture (cfg : Build) (ops : GrBackendTextureData T P S) (h : D3DHeap)
    (this that : GrBackendTexture T) : Except Fault Bool :=
  if !this.isValid || !that.isValid then .ok false
  else if this.fBackend ≠ that.fBackend then .ok false
  else
    match this.fBackend with
    | .kOpenGL | .kVulkan | .kMetal =>
      match this.fTextureData with
      | none => .error .nullDeref
      | some p => .ok (ops.isSameTexture p that.fTextureData)
    | .kDirect3D =>
      if cfg.SK_DIRECT3D then
        match this.fD3DInfo.snapTextureResourceInfo h, that.fD3DInfo.snapTextureResourceInfo h with
        | .ok a, .ok b => .ok (a.fResource == b.fResource)
        | .error e, _ => .error e
        | _, .error e => .error e
      else .ok false
    | .kMock => .ok (this.fMockInfo.id == that.fMockInfo.id)
    | .kUnsupported => .ok false

/-- The member `GrBackendTexture::getBackendFormat()`. -/
def getBackendFormat (cfg : Build) (ops : GrBackendTextureData T P S) (h : D3DHeap)
    (raw : GrBackendFormat P) (this : GrBackendTexture T) : Except Fault (GrBackendFormat P) :=
  if !this.isValid then .ok (GrBackendFormat.ctorDefault raw)
  else
    match this.fBackend with
    | .kOpenGL | .kVulkan | .kMetal =>
      match this.fTextureData with
      | none => .error .nullDeref
      | some p => .ok (ops.getBackendFormat p)
    | .kDirect3D =>
      if cfg.SK_DIRECT3D then
        match this.fD3DInfo.snapTextureResourceInfo h with
        | .error e => .error e
        | .ok d3dInfo => .ok (GrBackendFormat.ctorDxgi raw d3dInfo.fFormat)
      else .ok (GrBackendFormat.ctorDefault raw)
    | .kMock => this.fMockInfo.getBackendFormat cfg raw
    | .kUnsupported => .ok (GrBackendFormat.ctorDefault raw)

/-- The static member `GrBackendTexture::TestingOnly_Equals(t0, t1)` (compiled
under `GPU_TEST_UTILS`). `mockEq` and `d3dEq` are the `operator==` of
`GrMockTextureInfo` and of `GrD3DBackendSurfaceInfo`, defined outside the
file. -/
def TestingOnly_Equals (cfg : Build) (ops : GrBackendTextureData T P S)
    (mockEq : GrMockTextureInfo → GrMockTextureInfo → Bool)
    (d3dEq : GrD3DBackendSurfaceInfo → GrD3DBackendSurfaceInfo → Bool)
    (t0 t1 : GrBackendTexture T) : Except Fault Bool :=
  if !t0.isValid || !t1.isValid then .ok false
  else if t0.fWidth != t1.fWidth || t0.fHeight != t1.fHeight ||
      t0.fMipmapped != t1.fMipmapped || t0.fBackend != t1.fBackend then .ok false
  else
    match t0.fBackend with
    | .kOpenGL | .kVulkan | .kMetal =>
      match t0.fTextureData with
      | none => .error .nullDeref
      | some p => .ok (ops.equal p t1.fTextureData)
    | .kMock => .ok (mockEq t0.fMockInfo t1.fMockInfo)
    | .kDirect3D => if cfg.SK_DIRECT3D then .ok (d3dEq t0.fD3DInfo t1.fD3DInfo) else .ok false
    | .kUnsupported => .ok false

end GrBackendTexture

/-! ## Operations on `GrBackendRenderTarget` -/

/-- The virtual member functions of the payload class
`GrBackendRenderTargetData` that the file calls besides `isProtected()`, over
payloads `R`, format payloads `P` and mutable states `S`. -/
structure GrBackendRenderTargetData (R P S : Type) where
  copyTo : R → R
  equal : R → Option R → Bool
  getBackendFormat : R → GrBackendFormat P
  getMutableState : R → S
  setMutableState : R → S → R

namespace GrBackendRenderTarget

variable {R P S : Type}

/-- The default constructor `GrBackendRenderTarget() : fIsValid(false) {}`. -/
def ctorDefault (raw : GrBackendRenderTarget R) : GrBackendRenderTarget R :=
  { raw with fIsValid := false, fRTData := none }

/-- The Direct3D constructor that takes the shared state token `state`
(compiled under `SK_DIRECT3D`). The sample count is
`std::max(1U, d3dInfo.fSampleCount)`, an `unsigned int`, stored in the `int`
member `fSampleCnt`. -/
def ctorD3D (raw : GrBackendRenderTarget R) (width height : Int)
    (d3dInfo : GrD3DTextureResourceInfo) (state : Option Nat) : GrBackendRenderTarget R :=
  { raw with fIsValid := true, fWidth := width, fHeight := height,
             fSampleCnt := toInt32 (max 1 (d3dInfo.fSampleCount % 2 ^ 32)),
             fStencilBits := 0, fBackend := GrBackendApi.kDirect3D, fRTData := none,
             fD3DInfo := { fTextureResourceInfo := d3dInfo, fResourceState := state } }

/-- The Direct3D constructor without a token (compiled under `SK_DIRECT3D`): it
allocates a fresh token that wraps `d3dInfo.fResourceState` and delegates. -/
def ctorD3DFresh (h : D3DHeap) (raw : GrBackendRenderTarget R) (width height : Int)
    (d3dInfo : GrD3DTextureResourceInfo) : GrBackendRenderTarget R × D3DHeap :=
  (ctorD3D raw width height d3dInfo (some (h.alloc d3dInfo.fResourceState).1),
   (h.alloc d3dInfo.fResourceState).2)

/-- The Mock constructor
`GrBackendRenderTarget(int, int, int, int, const GrMockRenderTargetInfo&)`. -/
def ctorMock (raw : GrBackendRenderTarget R) (width height sampleCnt stencilBits : Int)
    (mockInfo : GrMockRenderTargetInfo) : GrBackendRenderTarget R :=
  { raw with fIsValid := true, fWidth := width, fHeight := height,
             fSampleCnt := max 1 sampleCnt, fStencilBits := stencilBits,
             fBackend := GrBackendApi.kMock, fRTData := none, fMockInfo := mockInfo }

/-- The member `GrBackendRenderTarget::cleanup()`. -/
def cleanup (cfg : Build) (h : D3DHeap) (this : GrBackendRenderTarget R) :
    GrBackendRenderTarget R × D3DHeap :=
  let this : GrBackendRenderTarget R := { this with fRTData := none }
  if cfg.SK_DIRECT3D && (this.isValid && GrBackendApi.kDirect3D == this.fBackend) then
    ({ this with fD3DInfo := (this.fD3DInfo.cleanup h).1 }, (this.fD3DInfo.cleanup h).2)
  else (this, h)

/-- The branch `else if (fIsValid && this->fBackend != that.fBackend)` of
`GrBackendRenderTarget::operator=`: an object that is valid with another
backend is cleaned up and marked invalid before it takes the members of
`that`. -/
def releaseOnBackendChange (cfg : Build) (h : D3DHeap) (this that : GrBackendRenderTarget R) :
    GrBackendRenderTarget R × D3DHeap :=
  if this.fIsValid && this.fBackend != that.fBackend then
    ({ (cleanup cfg h this).1 with fIsValid := false }, (cleanup cfg h this).2)
  else (this, h)

/-- The member `GrBackendRenderTarget::operator=`. `sameObject` says whether
`that` is the object assigned to (`this == &that`). Returns the object after
the assignment and the token memory. -/
def operator_assign (cfg : Build) (ops : GrBackendRenderTargetData R P S) (h : D3DHeap)
    (sameObject : Bool) (this that : GrBackendRenderTarget R) :
    Except Fault (GrBackendRenderTarget R × D3DHeap) :=
  if sameObject then .ok (this, h)
  else if !that.isValid then
    .ok ({ (cleanup cfg h this).1 with fIsValid := false }, (cleanup cfg h this).2)
  else
    let st : GrBackendRenderTarget R × D3DHeap := releaseOnBackendChange cfg h this that
    let this : GrBackendRenderTarget R :=
      { st.1 with fWidth := that.fWidth, fHeight := that.fHeight, fSampleCnt := that.fSampleCnt,
                  fStencilBits := that.fStencilBits, fBackend := that.fBackend }
    match that.fBackend with
    | .kOpenGL | .kVulkan | .kMetal =>
      match that.fRTData with
      | none => .error .nullDeref
      | some p =>
        .ok ({ this with fRTData := some (ops.copyTo p), fIsValid := that.fIsValid }, st.2)
    | .kDirect3D =>
      if cfg.SK_DIRECT3D then
        .ok ({ this with fD3DInfo := (this.fD3DInfo.assign st.2 that.fD3DInfo this.isValid).1,
                         fIsValid := that.fIsValid },
             (this.fD3DInfo.assign st.2 that.fD3DInfo this.isValid).2)
      else .error .abort
    | .kMock => .ok ({ this with fMockInfo := that.fMockInfo, fIsValid := that.fIsValid }, st.2)
    | .kUnsupported => .error .abort

/-- The copy constructor
`GrBackendRenderTarget(const GrBackendRenderTarget& that)`: the new object
starts invalid, with an empty payload holder, and is assigned `that`. -/
def copy (cfg : Build) (ops : GrBackendRenderTargetData R P S) (h : D3DHeap)
    (raw that : GrBackendRenderTarget R) : Except Fault (GrBackendRenderTarget R × D3DHeap) :=
  operator_assign cfg ops h false { raw with fIsValid := false, fRTData := none } that

/-- The member `GrBackendRenderTarget::getMutableState()`. -/
def getMutableState (ops : GrBackendRenderTargetData R P S) (this : GrBackendRenderTarget R) :
    Except Fault S :=
  match this.fRTData with
  | none => .error .nullDeref
  | some p => .ok (ops.getMutableState p)

/-- The member `GrBackendRenderTarget::setMutableState(state)`: the object
after the call. -/
def setMutableState (ops : GrBackendRenderTargetData R P S) (this : GrBackendRenderTarget R)
    (state : S) : Except Fault (GrBackendRenderTarget R) :=
  match this.fRTData with
  | none => .error .nullDeref
  | some p => .ok { this with fRTData := some (ops.setMutableState p state) }

/-- The member `GrBackendRenderTarget::getD3DTextureResourceInfo(outInfo)`
(compiled under `SK_DIRECT3D`): the returned flag and the content of `*outInfo`
after the call. -/
def getD3DTextureResourceInfo (h : D3DHeap) (this : GrBackendRenderTarget R)
    (outInfo : GrD3DTextureResourceInfo) : Except Fault (Bool × GrD3DTextureResourceInfo) :=
  if this.isValid && GrBackendApi.kDirect3D == this.fBackend then
    match this.fD3DInfo.snapTextureResourceInfo h with
    | .error e => .error e
    | .ok info => .ok (true, info)
  else .ok (false, outInfo)

/-- The member `GrBackendRenderTarget::setD3DResourceState(state)` (compiled
under `SK_DIRECT3D`): the token memory after the call. -/
def setD3DResourceState (h : D3DHeap) (this : GrBackendRenderTarget R) (state : Nat) :
    Except Fault D3DHeap :=
  if this.isValid && GrBackendApi.kDirect3D == this.fBackend then
    this.fD3DInfo.setResourceState h state
  else .ok h

/-- The member `GrBackendRenderTarget::getGrD3DResourceState()` (compiled under
`SK_DIRECT3D`): the returned token pointer and the token memory. -/
def getGrD3DResourceState (h : D3DHeap) (this : GrBackendRenderTarget R) :
    Option Nat × D3DHeap :=
  if this.isValid && GrBackendApi.kDirect3D == this.fBackend then
    this.fD3DInfo.getGrD3DResourceState h
  else (none, h)

/-- The member `GrBackendRenderTarget::getBackendFormat()`. -/
def getBackendFormat (cfg : Build) (ops : GrBackendRenderTargetData R P S) (h : D3DHeap)
    (raw : GrBackendFormat P) (this : GrBackendRenderTarget R) :
    Except Fault (GrBackendFormat P) :=
  if !this.isValid then .ok (GrBackendFormat.ctorDefault raw)
  else
    match this.fBackend with
    | .kOpenGL | .kVulkan | .kMetal =>
      match this.fRTData with
      | none => .error .nullDeref
      | some p => .ok (ops.getBackendFormat p)
    | .kDirect3D =>
      if cfg.SK_DIRECT3D then
        match this.fD3DInfo.snapTextureResourceInfo h with
        | .error e => .error e
        | .ok info => .ok (GrBackendFormat.ctorDxgi raw info.fFormat)
      else .ok (GrBackendFormat.ctorDefault raw)
    | .kMock => this.fMockInfo.getBackendFormat cfg raw
    | .kUnsupported => .ok (GrBackendFormat.ctorDefault raw)

/-- The member `GrBackendRenderTarget::getMockRenderTargetInfo(outInfo)`: the
returned flag and the content of `*outInfo` after the call. -/
def getMockRenderTargetInfo (this : GrBackendRenderTarget R)
    (outInfo : GrMockRenderTargetInfo) : Bool × GrMockRenderTargetInfo :=
  if this.isValid && GrBackendApi.kMock == this.fBackend then (true, this.fMockInfo)
  else (false, outInfo)

/-- The static member `GrBackendRenderTarget::TestingOnly_Equals(r0, r1)`
(compiled under `GPU_TEST_UTILS`). `mockEq` and `d3dEq` are the `operator==` of
`GrMockRenderTargetInfo` and of `GrD3DBackendSurfaceInfo`, defined outside the
file. -/
def TestingOnly_Equals (cfg : Build) (ops : GrBackendRenderTargetData R P S)
    (mockEq : GrMockRenderTargetInfo → GrMockRenderTargetInfo → Bool)
    (d3dEq : GrD3DBackendSurfaceInfo → GrD3DBackendSurfaceInfo → Bool)
    (r0 r1 : GrBackendRenderTarget R) : Except Fault Bool :=
  if !r0.isValid || !r1.isValid then .ok false
  else if r0.fWidth != r1.fWidth || r0.fHeight != r1.fHeight ||
      r0.fSampleCnt != r1.fSampleCnt || r0.fStencilBits != r1.fStencilBits ||
      r0.fBackend != r1.fBackend then .ok false
  else
    match r0.fBackend with
    | .kOpenGL | .kVulkan | .kMetal =>
      match r0.fRTData with
      | none => .error .nullDeref
      | some p => .ok (ops.equal p r1.fRTData)
    | .kMock => .ok (mockEq r0.fMockInfo r1.fMockInfo)
    | .kDirect3D => if cfg.SK_DIRECT3D then .ok (d3dEq r0.fD3DInfo r1.fD3DInfo) else .ok false
    | .kUnsupported => .ok false

end GrBackendRenderTarget

/-! ## Concrete instances used to evaluate the definitions -/

/-- A payload interface over `Nat` payloads and `Nat` descriptors: copies are
exact, `equal` compares the numbers, `makeTexture2D` adds 100. -/
def natFormatData : GrBackendFormatData Nat Nat where
  copyTo := fun p => p
  equal := fun p q => q == some p
  channelMask := fun p => p % 16
  desc := fun p => p
  makeTexture2D := fun p => p + 100

/-- Lookup tables over `Nat` descriptors; descriptor `0` is the invalid one. -/
def natTables : FormatTables Nat where
  GrColorTypeChannelFlags := fun c =>
    match c with
    | .kUnknown => 0
    | .other n => n % 16
  GrGetColorTypeDesc := fun c =>
    match c with
    | .kUnknown => 0
    | .other n => n + 1
  GrDxgiFormatChannels := fun n => n % 16
  GrDxgiFormatDesc := fun n => n + 1
  MakeInvalid := 0

/-- Object storage before any constructor has run; the members are declared
with `fBackend = kMock` and `fTextureType = other 0`. -/
def rawFormat : GrBackendFormat Nat where
  fBackend := .kMock
  fValid := false
  fFormatData := none
  fDxgiFormat := 0
  fMock := { fColorType := .kUnknown, fCompressionType := .kNone, fIsStencilFormat := false }
  fTextureType := .other 0

/-- A release build without Direct3D. -/
def releaseBuild : Build := { SK_DIRECT3D := false, SK_DEBUG := false }

/-- A debug build with Direct3D. -/
def debugBuild : Build := { SK_DIRECT3D := true, SK_DEBUG := true }

/-- The Mock-format invariant in the words of the specification: exactly one of
"color type is not unknown", "compression type is not none", "is a stencil
format" holds of the Mock fields. -/
def MockFormat.exactlyOne (m : MockFormat) : Prop :=
  (m.fColorType ≠ GrColorType.kUnknown ∧ m.fCompressionType = SkTextureCompressionType.kNone ∧
      m.fIsStencilFormat = false) ∨
  (m.fColorType = GrColorType.kUnknown ∧ m.fCompressionType ≠ SkTextureCompressionType.kNone ∧
      m.fIsStencilFormat = false) ∨
  (m.fColorType = GrColorType.kUnknown ∧ m.fCompressionType = SkTextureCompressionType.kNone ∧
      m.fIsStencilFormat = true)

instance (m : MockFormat) : Decidable m.exactlyOne := by
  unfold MockFormat.exactlyOne
  infer_instance

/-- A valid Mock format with the given Mock fields, as the Mock constructor
lays it out. -/
def mockFormat (c : GrColorType) (k : SkTextureCompressionType) (s : Bool) : GrBackendFormat Nat :=
  { rawFormat with fBackend := .kMock, fValid := true, fTextureType := .k2D,
                   fMock := { fColorType := c, fCompressionType := k, fIsStencilFormat := s } }

/-- A valid payload-backed format of backend `api` holding payload `p`, with
texture type `t`. -/
def payloadFormat (api : GrBackendApi) (t : GrTextureType) (p : Nat) : GrBackendFormat Nat :=
  { rawFormat with fBackend := api, fValid := true, fTextureType := t, fFormatData := some p }

/-- The default-constructed format after `makeTexture2D()`: invalid, Mock tag,
texture type 2D. -/
def invalid2D : GrBackendFormat Nat :=
  { GrBackendFormat.ctorDefault rawFormat with fTextureType := .k2D }

/-- A payload implementation for `isProtected()` over `Bool` payloads: the
payload is the flag. -/
def boolProtected : ProtectedQuery Bool where
  isProtected := fun p => p

/-- A texture handle with every member at a default value: invalid, Mock tag. -/
def rawTexture : GrBackendTexture Bool where
  fIsValid := false
  fWidth := 0
  fHeight := 0
  fLabel := ""
  fMipmapped := false
  fBackend := .kMock
  fTextureType := .other 0
  fTextureData := none
  fD3DInfo := { fTextureResourceInfo := { fResource := 0, fResourceState := 0, fFormat := 0,
                                          fSampleCount := 0, fLevelCount := 0 },
                fResourceState := none }
  fMockInfo := { fColorType := .kUnknown, fCompressionType := .kNone, fID := 0,
                 fProtected := false }

/-- A render-target handle with every member at a default value: invalid, Mock
tag. -/
def rawRenderTarget : GrBackendRenderTarget Bool where
  fIsValid := false
  fWidth := 0
  fHeight := 0
  fSampleCnt := 0
  fStencilBits := 0
  fBackend := .kMock
  fRTData := none
  fD3DInfo := { fTextureResourceInfo := { fResource := 0, fResourceState := 0, fFormat := 0,
                                          fSampleCount := 0, fLevelCount := 0 },
                fResourceState := none }
  fMockInfo := { fColorType := .kUnknown, fID := 0, fProtected := false }

/-- A texture payload implementation over `Bool` payloads, `Nat` format payloads
and `Nat` mutable states: copies are exact, `equal` and `isSameTexture` compare
the payloads, the mutable state is 1 for `true` and 0 for `false`. -/
def boolTextureData : GrBackendTextureData Bool Nat Nat where
  copyTo := fun p => p
  equal := fun p q => q == some p
  isSameTexture := fun p q => q == some p
  getBackendFormat := fun _ => payloadFormat GrBackendApi.kOpenGL GrTextureType.k2D 0
  getMutableState := fun p => if p then 1 else 0
  setMutableState := fun _ s => decide (s ≠ 0)

/-- A render-target payload implementation over `Bool` payloads, as
`boolTextureData`. -/
def boolRenderTargetData : GrBackendRenderTargetData Bool Nat Nat where
  copyTo := fun p => p
  equal := fun p q => q == some p
  getBackendFormat := fun _ => payloadFormat GrBackendApi.kOpenGL GrTextureType.k2D 0
  getMutableState := fun p => if p then 1 else 0
  setMutableState := fun _ s => decide (s ≠ 0)

/-- Token memory in which nothing was allocated. -/
def emptyHeap : D3DHeap where
  cells := fun _ => none
  next := 0

/-- A Mock texture info with id `i`. -/
def mockTextureInfo (i : Int) : GrMockTextureInfo :=
  { fColorType := GrColorType.other 1, fCompressionType := SkTextureCompressionType.kNone,
    fID := i, fProtected := false }

/-- A Mock render-target info with id `i`. -/
def mockRenderTargetInfo (i : Int) : GrMockRenderTargetInfo :=
  { fColorType := GrColorType.other 1, fID := i, fProtected := false }

/-- A Direct3D resource info for resource `r` in initial state `s`, with sample
count `n`. -/
def d3dResourceInfo (r s n : Nat) : GrD3DTextureResourceInfo :=
  { fResource := r, fResourceState := s, fFormat := 28, fSampleCount := n, fLevelCount := 1 }

/-- Full structural equality of the Mock fields of two formats: color type,
compression type and stencil flag are all three equal. -/
def mockFieldsEqual {P : Type} (a b : GrBackendFormat P) : Prop :=
  a.fMock.fColorType = b.fMock.fColorType ∧
  a.fMock.fCompressionType = b.fMock.fCompressionType ∧
  a.fMock.fIsStencilFormat = b.fMock.fIsStencilFormat

instance {P : Type} (a b : GrBackendFormat P) : Decidable (mockFieldsEqual a b) := by
  unfold mockFieldsEqual
  infer_instance

/-- The resource state held by the token at address `a`, when there is one. -/
def D3DHeap.stateAt (h : D3DHeap) (a : Nat) : Option Nat :=
  (h.cells a).map (fun c => c.fResourceState)

/-- An update of the resource state applied through `x` is observed when the
state is read through `y`: in token memory `h`, for every state `s`,
`x.setD3DResourceState(s)` returns and afterwards
`y.getD3DTextureResourceInfo(&out)` returns true with `out.fResourceState`
equal to `s`. -/
def observesUpdates {T : Type} (h : D3DHeap) (x y : GrBackendTexture T) : Prop :=
  ∀ (s : Nat) (out : GrD3DTextureResourceInfo),
    ∃ h2, x.setD3DResourceState h s = .ok h2 ∧
      ∃ i, y.getD3DTextureResourceInfo h2 out = .ok (true, i) ∧ i.fResourceState = s

/-- An update of the resource state applied through `x` is not observed through
`y`: in token memory `h`, for every state `s`, `x.setD3DResourceState(s)`
returns and `y.getD3DTextureResourceInfo(&out)` gives afterwards what it gave
before, a snapshot with the state `s0`. -/
def ignoresUpdates {T : Type} (h : D3DHeap) (x y : GrBackendTexture T) (s0 : Nat) : Prop :=
  ∀ (s : Nat) (out : GrD3DTextureResourceInfo),
    ∃ h2, x.setD3DResourceState h s = .ok h2 ∧
      y.getD3DTextureResourceInfo h2 out = y.getD3DTextureResourceInfo h out ∧
      ∃ i, y.getD3DTextureResourceInfo h out = .ok (true, i) ∧ i.fResourceState = s0

/-- The Direct3D texture the token-less constructor builds in empty token memory
from a resource in state 2. -/
def d3dTexture1 : GrBackendTexture Bool :=
  (GrBackendTexture.ctorD3DFresh emptyHeap rawTexture 4 4 (d3dResourceInfo 1 2 1) "t").1

/-- The token memory after `d3dTexture1` was built: one token, at address 0. -/
def d3dHeap1 : D3DHeap :=
  (GrBackendTexture.ctorD3DFresh emptyHeap rawTexture 4 4 (d3dResourceInfo 1 2 1) "t").2

/-! ## Theorems -/

section Format

variable {P D : Type}

open GrBackendFormat

/-- C1: an invalid format is equal to nothing. For all formats `a`, `b`, if
`a` or `b` is invalid then `a == b` returns false; so for every invalid `x`,
`x == x` returns false, and the default-constructed format is such an `x`. -/
theorem operator_eq_invalid (cfg : Build) (ops : GrBackendFormatData P D) :
    (∀ a b : GrBackendFormat P, a.isValid = false ∨ b.isValid = false →
        operator_eq cfg ops a b = .ok false) ∧
    (∀ x : GrBackendFormat P, x.isValid = false → operator_eq cfg ops x x = .ok false) ∧
    (∀ raw : GrBackendFormat P, (ctorDefault raw).isValid = false ∧
        operator_eq cfg ops (ctorDefault raw) (ctorDefault raw) = .ok false) := by
  have key : ∀ a b : GrBackendFormat P, a.isValid = false ∨ b.isValid = false →
      operator_eq cfg ops a b = .ok false := by
    intro a b h
    unfold operator_eq
    rcases h with h | h <;> simp [isValid] at h <;> simp [h]
  refine ⟨key, fun x hx => key x x (Or.inl hx), fun raw => ⟨rfl, key _ _ (Or.inl rfl)⟩⟩

/-- C1 at concrete inputs: an invalid format against a valid Mock format, an
invalid format against itself, and the default-constructed format against
itself. -/
theorem operator_eq_invalid_witness :
    operator_eq debugBuild natFormatData rawFormat (mockFormat (.other 1) .kNone false)
        = .ok false ∧
    operator_eq debugBuild natFormatData rawFormat rawFormat = .ok false ∧
    operator_eq debugBuild natFormatData (ctorDefault rawFormat) (ctorDefault rawFormat)
        = .ok false :=
  ⟨(operator_eq_invalid debugBuild natFormatData).1 _ _ (Or.inl rfl),
   (operator_eq_invalid debugBuild natFormatData).2.1 _ rfl,
   ((operator_eq_invalid debugBuild natFormatData).2.2 rawFormat).2⟩

/-- C2: for two valid Mock formats `a`, `b`, `a == b` returns a value, and that
value is true exactly when the color types are equal and the compression types
are equal. The stencil flag is not consulted: replacing the flags of `a` and
`b` by any others does not change the result, so formats that differ in the
stencil flag only compare equal. -/
theorem operator_eq_mock (cfg : Build) (ops : GrBackendFormatData P D) (a b : GrBackendFormat P)
    (ha : a.isValid = true) (hb : b.isValid = true)
    (hta : a.backend = GrBackendApi.kMock) (htb : b.backend = GrBackendApi.kMock) :
    operator_eq cfg ops a b
        = .ok (decide (a.fMock.fColorType = b.fMock.fColorType ∧
                       a.fMock.fCompressionType = b.fMock.fCompressionType)) ∧
    (operator_eq cfg ops a b = .ok true ↔
        a.fMock.fColorType = b.fMock.fColorType ∧
        a.fMock.fCompressionType = b.fMock.fCompressionType) ∧
    (∀ s s' : Bool,
        operator_eq cfg ops { a with fMock := { a.fMock with fIsStencilFormat := s } }
                            { b with fMock := { b.fMock with fIsStencilFormat := s' } }
          = operator_eq cfg ops a b) ∧
    (a.fMock.fColorType = b.fMock.fColorType →
      a.fMock.fCompressionType = b.fMock.fCompressionType →
      a.fMock.fIsStencilFormat ≠ b.fMock.fIsStencilFormat →
      operator_eq cfg ops a b = .ok true) := by
  simp only [isValid, backend] at ha hb hta htb
  have h1 : operator_eq cfg ops a b
      = .ok (decide (a.fMock.fColorType = b.fMock.fColorType ∧
                     a.fMock.fCompressionType = b.fMock.fCompressionType)) := by
    simp [operator_eq, ha, hb, hta, htb, Bool.decide_and]
    rfl
  refine ⟨h1, ?_, ?_, ?_⟩
  · rw [h1]; simp
  · intro s s'
    simp [operator_eq, ha, hb, hta, htb]
  · intro hc hk _
    rw [h1]; simp [hc, hk]

/-- C2 at a concrete input: two Mock formats with the same color type and
compression type, one flagged stencil and one not, compare equal. -/
theorem operator_eq_mock_witness :
    operator_eq releaseBuild natFormatData (mockFormat (.other 1) .kNone false)
        (mockFormat (.other 1) .kNone true) = .ok true :=
  (operator_eq_mock releaseBuild natFormatData (mockFormat (.other 1) .kNone false)
    (mockFormat (.other 1) .kNone true) rfl rfl rfl rfl).2.2.2 rfl rfl (by decide)

/-- C3: two valid formats with different backend tags are not equal, whatever
their payloads and inline fields hold; the result is the same for every payload
implementation, whose `equal` is therefore not consulted. -/
theorem operator_eq_tag_mismatch (cfg : Build) (ops : GrBackendFormatData P D)
    (a b : GrBackendFormat P) (ha : a.isValid = true) (hb : b.isValid = true)
    (hne : a.backend ≠ b.backend) :
    operator_eq cfg ops a b = .ok false ∧
    (∀ ops' : GrBackendFormatData P D, operator_eq cfg ops' a b = operator_eq cfg ops a b) := by
  simp only [isValid, backend] at ha hb hne
  have key : ∀ o : GrBackendFormatData P D, operator_eq cfg o a b = .ok false := by
    intro o
    simp [operator_eq, ha, hb, hne]
  exact ⟨key ops, fun o => by rw [key o, key ops]⟩

/-- C3 at a concrete input: an OpenGL and a Vulkan format holding the same
payload are not equal. -/
theorem operator_eq_tag_mismatch_witness :
    operator_eq releaseBuild natFormatData (payloadFormat .kOpenGL .k2D 7)
        (payloadFormat .kVulkan .k2D 7) = .ok false :=
  (operator_eq_tag_mismatch releaseBuild natFormatData (payloadFormat .kOpenGL .k2D 7)
    (payloadFormat .kVulkan .k2D 7) rfl rfl (by decide)).1

/-- The value of `validateMock` depends on the Mock fields only and is the
exactly-one-of-three condition. -/
theorem validateMock_eq_true_iff (f : GrBackendFormat P) :
    validateMock f = true ↔ f.fMock.exactlyOne := by
  rcases f with ⟨_, _, _, _, ⟨c, k, s⟩, _⟩
  cases c <;> cases k <;> cases s <;> simp [validateMock, MockFormat.exactlyOne]

/-- What the Mock constructor returns: in a debug build the format carrying the
arguments when they satisfy the invariant and an abort otherwise; in any other
build always the format carrying the arguments. -/
theorem ctorMock_eq (cfg : Build) (raw : GrBackendFormat P) (c : GrColorType)
    (k : SkTextureCompressionType) (s : Bool) :
    ctorMock cfg raw c k s =
      if cfg.SK_DEBUG = true ∧
          ¬ MockFormat.exactlyOne { fColorType := c, fCompressionType := k, fIsStencilFormat := s }
      then .error .abort
      else .ok { raw with fBackend := .kMock, fValid := true, fTextureType := .k2D,
                          fFormatData := none,
                          fMock := { fColorType := c, fCompressionType := k,
                                     fIsStencilFormat := s } } := by
  unfold ctorMock SkASSERT
  cases hd : cfg.SK_DEBUG
  · simp
  · cases c <;> cases k <;> cases s <;> simp [validateMock, MockFormat.exactlyOne]

/-- The Mock constructor returns the format carrying its arguments when they
satisfy the invariant, in every build. -/
theorem ctorMock_ok (cfg : Build) (raw : GrBackendFormat P) (c : GrColorType)
    (k : SkTextureCompressionType) (s : Bool)
    (h : MockFormat.exactlyOne { fColorType := c, fCompressionType := k, fIsStencilFormat := s }) :
    ctorMock cfg raw c k s =
      .ok { raw with fBackend := .kMock, fValid := true, fTextureType := .k2D,
                     fFormatData := none,
                     fMock := { fColorType := c, fCompressionType := k,
                                fIsStencilFormat := s } } := by
  rw [ctorMock_eq, if_neg]
  exact fun hh => hh.2 h

/-- C4: `validateMock` returns true exactly when exactly one of the three
conditions (color type not unknown, compression type not none, stencil flag
set) holds of the Mock fields. So for `X` not unknown and `Y` not none,
`MakeMock(X, kNone, false)`, `MakeMock(kUnknown, Y, false)` and
`MakeMock(kUnknown, kNone, true)` return formats that satisfy it, while Mock
fields with none, two or three of the conditions set do not. -/
theorem validateMock_exactly_one (cfg : Build) (raw : GrBackendFormat P) :
    (∀ f : GrBackendFormat P, validateMock f = true ↔ f.fMock.exactlyOne) ∧
    (∀ (X : GrColorType) (Y : SkTextureCompressionType),
      X ≠ GrColorType.kUnknown → Y ≠ SkTextureCompressionType.kNone →
      (∃ g, MakeMock cfg raw X .kNone false = .ok g ∧ validateMock g = true) ∧
      (∃ g, MakeMock cfg raw .kUnknown Y false = .ok g ∧ validateMock g = true) ∧
      (∃ g, MakeMock cfg raw .kUnknown .kNone true = .ok g ∧ validateMock g = true) ∧
      (∀ g : GrBackendFormat P,
        (g.fMock = ⟨.kUnknown, .kNone, false⟩ → validateMock g = false) ∧
        (g.fMock = ⟨X, Y, false⟩ → validateMock g = false) ∧
        (g.fMock = ⟨X, .kNone, true⟩ → validateMock g = false) ∧
        (g.fMock = ⟨.kUnknown, Y, true⟩ → validateMock g = false) ∧
        (g.fMock = ⟨X, Y, true⟩ → validateMock g = false))) := by
  refine ⟨validateMock_eq_true_iff, ?_⟩
  intro X Y hX hY
  have h1 : MockFormat.exactlyOne ⟨X, .kNone, false⟩ := by simp [MockFormat.exactlyOne, hX]
  have h2 : MockFormat.exactlyOne ⟨.kUnknown, Y, false⟩ := by simp [MockFormat.exactlyOne, hY]
  have h3 : MockFormat.exactlyOne ⟨.kUnknown, .kNone, true⟩ := by simp [MockFormat.exactlyOne]
  refine ⟨⟨_, ctorMock_ok cfg raw _ _ _ h1, ?_⟩, ⟨_, ctorMock_ok cfg raw _ _ _ h2, ?_⟩,
    ⟨_, ctorMock_ok cfg raw _ _ _ h3, ?_⟩, ?_⟩
  · rw [validateMock_eq_true_iff]; exact h1
  · rw [validateMock_eq_true_iff]; exact h2
  · rw [validateMock_eq_true_iff]; exact h3
  · intro g
    have hn : ∀ m : MockFormat, g.fMock = m → ¬ m.exactlyOne → validateMock g = false := by
      intro m hm hne
      rw [← hm, ← validateMock_eq_true_iff] at hne
      simpa using hne
    refine ⟨fun h => hn _ h ?_, fun h => hn _ h ?_, fun h => hn _ h ?_, fun h => hn _ h ?_,
      fun h => hn _ h ?_⟩ <;> simp [MockFormat.exactlyOne, hX, hY]

/-- C4 at concrete inputs: in a debug build `MakeMock(other 1, kNone, false)`
returns a format on which `validateMock` is true, and `validateMock` is false
on the fields `(other 1, other 2, false)`. -/
theorem validateMock_exactly_one_witness :
    (∃ g, MakeMock debugBuild rawFormat (.other 1) .kNone false = .ok g ∧
      validateMock g = true) ∧
    validateMock (mockFormat (.other 1) (.other 2) false) = false :=
  ⟨((validateMock_exactly_one debugBuild rawFormat).2 (.other 1) (.other 2)
      (by decide) (by decide)).1,
   (((validateMock_exactly_one debugBuild rawFormat).2 (.other 1) (.other 2)
      (by decide) (by decide)).2.2.2 (mockFormat (.other 1) (.other 2) false)).2.1 rfl⟩

/-- In a debug build every format the Mock constructor returns passes
`validateMock`. -/
theorem ctorMock_validateMock (cfg : Build) (raw g : GrBackendFormat P) (c : GrColorType)
    (k : SkTextureCompressionType) (s : Bool) (hd : cfg.SK_DEBUG = true)
    (h : ctorMock cfg raw c k s = .ok g) : validateMock g = true := by
  rw [ctorMock_eq] at h
  split at h
  · cases h
  · rename_i hcond
    injection h with h
    subst h
    rw [validateMock_eq_true_iff]
    by_contra hne
    exact hcond ⟨hd, hne⟩

/-- The copy constructor keeps the Mock fields of a valid Mock format, hence the
value of `validateMock`. -/
theorem copy_validateMock (cfg : Build) (ops : GrBackendFormatData P D)
    (raw f g : GrBackendFormat P) (hv : f.fValid = true)
    (ht : f.fBackend = GrBackendApi.kMock) (h : copy cfg ops raw f = .ok g) :
    g.fValid = true ∧ g.fBackend = GrBackendApi.kMock ∧ validateMock g = validateMock f := by
  simp [copy, hv, ht] at h
  subst h
  exact ⟨rfl, rfl, rfl⟩

/-- C5 as stated fails in a build without `SK_DEBUG`: there
`MakeMock(kUnknown, kNone, false)` returns a valid Mock format with none of the
three conditions set, and `MakeMock(other 1, other 2, false)` one with two of
them set. -/
theorem MakeMock_release_unchecked :
    MakeMock releaseBuild rawFormat .kUnknown .kNone false
        = .ok (mockFormat .kUnknown .kNone false) ∧
    (mockFormat .kUnknown .kNone false).isValid = true ∧
    (mockFormat .kUnknown .kNone false).backend = GrBackendApi.kMock ∧
    ¬ (mockFormat .kUnknown .kNone false).fMock.exactlyOne ∧
    MakeMock releaseBuild rawFormat (.other 1) (.other 2) false
        = .ok (mockFormat (.other 1) (.other 2) false) ∧
    (mockFormat (.other 1) (.other 2) false).isValid = true ∧
    (mockFormat (.other 1) (.other 2) false).backend = GrBackendApi.kMock ∧
    ¬ (mockFormat (.other 1) (.other 2) false).fMock.exactlyOne := by
  refine ⟨rfl, rfl, rfl, by decide, rfl, rfl, rfl, by decide⟩

/-- C5, amended: the exactly-one-of-three invariant is enforced at construction
in debug builds. Whatever `MakeMock` returns is a valid Mock format of texture
type 2D carrying the arguments. In a build with `SK_DEBUG`, `MakeMock` returns
when exactly one of the three conditions holds of the arguments and aborts
otherwise, so every format it returns satisfies the invariant. In a build
without `SK_DEBUG` it performs no check and returns for all arguments. -/
theorem MakeMock_invariant (cfg : Build) (raw : GrBackendFormat P) (c : GrColorType)
    (k : SkTextureCompressionType) (s : Bool) :
    (∀ g, MakeMock cfg raw c k s = .ok g →
        g.isValid = true ∧ g.backend = GrBackendApi.kMock ∧ g.textureType = GrTextureType.k2D ∧
        g.fMock = ⟨c, k, s⟩ ∧ (cfg.SK_DEBUG = true → g.fMock.exactlyOne)) ∧
    (cfg.SK_DEBUG = true →
        (MockFormat.exactlyOne ⟨c, k, s⟩ → ∃ g, MakeMock cfg raw c k s = .ok g) ∧
        (¬ MockFormat.exactlyOne ⟨c, k, s⟩ → MakeMock cfg raw c k s = .error .abort)) ∧
    (cfg.SK_DEBUG = false → ∃ g, MakeMock cfg raw c k s = .ok g) := by
  unfold MakeMock
  rw [ctorMock_eq]
  refine ⟨?_, ?_, ?_⟩
  · intro g hg
    split at hg
    · cases hg
    · rename_i hcond
      injection hg with hg
      subst hg
      refine ⟨rfl, rfl, rfl, rfl, fun hd => ?_⟩
      by_contra hne
      exact hcond ⟨hd, hne⟩
  · intro hd
    refine ⟨fun h => ⟨_, if_neg (fun hh => hh.2 h)⟩, fun h => if_pos ⟨hd, h⟩⟩
  · intro hd
    exact ⟨_, if_neg (fun hh => by simp [hd] at hh)⟩

/-- C5, amended, at concrete inputs: in a debug build
`MakeMock(kUnknown, kNone, false)` aborts and `MakeMock(other 1, kNone, false)`
returns. -/
theorem MakeMock_invariant_witness :
    MakeMock debugBuild rawFormat .kUnknown .kNone false = .error .abort ∧
    ∃ g, MakeMock debugBuild rawFormat (.other 1) .kNone false = .ok g :=
  ⟨((MakeMock_invariant debugBuild rawFormat .kUnknown .kNone false).2.1 rfl).2 (by decide),
   ((MakeMock_invariant debugBuild rawFormat (.other 1) .kNone false).2.1 rfl).1 (by decide)⟩

/-- C6: the Mock accessors. On a valid Mock format (which, in a debug build,
satisfies the invariant its constructor asserts) `asMockColorType`,
`asMockCompressionType` and `isMockStencilFormat` return the stored color type,
compression type and stencil flag; so for invariant-respecting arguments the
format `MakeMock(c, k, s)` returns reads back `c`, `k` and `s`. On a format
that is invalid or has another tag they return `kUnknown`, `kNone` and `false`,
in every build and without failing. -/
theorem asMock_accessors (cfg : Build) (f : GrBackendFormat P) :
    (f.isValid = true → f.backend = GrBackendApi.kMock →
      (cfg.SK_DEBUG = true → validateMock f = true) →
        asMockColorType cfg f = .ok f.fMock.fColorType ∧
        asMockCompressionType cfg f = .ok f.fMock.fCompressionType ∧
        isMockStencilFormat cfg f = .ok f.fMock.fIsStencilFormat) ∧
    (f.isValid = false ∨ f.backend ≠ GrBackendApi.kMock →
        asMockColorType cfg f = .ok GrColorType.kUnknown ∧
        asMockCompressionType cfg f = .ok SkTextureCompressionType.kNone ∧
        isMockStencilFormat cfg f = .ok false) ∧
    (∀ (raw : GrBackendFormat P) (c : GrColorType) (k : SkTextureCompressionType) (s : Bool),
      MockFormat.exactlyOne ⟨c, k, s⟩ →
        ∃ g, MakeMock cfg raw c k s = .ok g ∧
          asMockColorType cfg g = .ok c ∧
          asMockCompressionType cfg g = .ok k ∧
          isMockStencilFormat cfg g = .ok s) := by
  have stored : ∀ g : GrBackendFormat P, g.isValid = true → g.backend = GrBackendApi.kMock →
      (cfg.SK_DEBUG = true → validateMock g = true) →
        asMockColorType cfg g = .ok g.fMock.fColorType ∧
        asMockCompressionType cfg g = .ok g.fMock.fCompressionType ∧
        isMockStencilFormat cfg g = .ok g.fMock.fIsStencilFormat := by
    intro g hv ht hinv
    simp only [backend] at ht
    have hcond : (cfg.SK_DEBUG && !validateMock g) = false := by
      cases hd : cfg.SK_DEBUG
      · rfl
      · simp [hinv hd]
    simp [asMockColorType, asMockCompressionType, isMockStencilFormat, SkASSERT, hv, ht, hcond]
  refine ⟨stored f, ?_, ?_⟩
  · intro h
    have hcond : (f.isValid && GrBackendApi.kMock == f.fBackend) = false := by
      rcases h with h | h
      · simp [h]
      · have : (GrBackendApi.kMock == f.fBackend) = false := by
          simp only [backend] at h
          rw [beq_eq_false_iff_ne]
          exact fun e => h e.symm
        simp [this]
    simp [asMockColorType, asMockCompressionType, isMockStencilFormat, hcond]
  · intro raw c k s h
    refine ⟨_, ctorMock_ok cfg raw c k s h, ?_⟩
    exact stored _ rfl rfl (fun _ => (validateMock_eq_true_iff _).2 h)

/-- C6 at concrete inputs: in a debug build the accessors read the fields of a
stencil Mock format back, and return the sentinels on an invalid format. -/
theorem asMock_accessors_witness :
    (asMockColorType debugBuild (mockFormat .kUnknown .kNone true) = .ok .kUnknown ∧
      asMockCompressionType debugBuild (mockFormat .kUnknown .kNone true) = .ok .kNone ∧
      isMockStencilFormat debugBuild (mockFormat .kUnknown .kNone true) = .ok true) ∧
    (asMockColorType debugBuild rawFormat = .ok .kUnknown ∧
      asMockCompressionType debugBuild rawFormat = .ok .kNone ∧
      isMockStencilFormat debugBuild rawFormat = .ok false) :=
  ⟨(asMock_accessors debugBuild (mockFormat .kUnknown .kNone true)).1 rfl rfl (fun _ => rfl),
   (asMock_accessors debugBuild rawFormat).2.1 (Or.inl rfl)⟩

/-- C7: on an invalid format `channelMask` returns 0 and `desc` returns the
invalid descriptor, whatever the backend tag and for every payload
implementation and lookup table entry (none is consulted); on a valid Mock
format they return the channel flags and the descriptor looked up from the
stored color type. -/
theorem channelMask_desc (cfg : Build) (tbl : FormatTables D) (ops : GrBackendFormatData P D)
    (f : GrBackendFormat P) :
    (f.isValid = false →
        channelMask cfg tbl ops f = .ok 0 ∧ desc cfg tbl ops f = .ok tbl.MakeInvalid) ∧
    (f.isValid = true → f.backend = GrBackendApi.kMock →
        channelMask cfg tbl ops f = .ok (tbl.GrColorTypeChannelFlags f.fMock.fColorType) ∧
        desc cfg tbl ops f = .ok (tbl.GrGetColorTypeDesc f.fMock.fColorType)) := by
  refine ⟨fun h => ?_, fun hv ht => ?_⟩
  · simp [channelMask, desc, h]
  · simp only [backend] at ht
    simp [channelMask, desc, hv, ht]

/-- C7 at concrete inputs: an invalid format with the Vulkan tag and no payload,
and a valid Mock format of color type `other 5`. -/
theorem channelMask_desc_witness :
    (channelMask releaseBuild natTables natFormatData
        { rawFormat with fBackend := GrBackendApi.kVulkan } = .ok 0 ∧
      desc releaseBuild natTables natFormatData
        { rawFormat with fBackend := GrBackendApi.kVulkan } = .ok 0) ∧
    (channelMask releaseBuild natTables natFormatData (mockFormat (.other 5) .kNone false)
        = .ok 5 ∧
      desc releaseBuild natTables natFormatData (mockFormat (.other 5) .kNone false)
        = .ok 6) :=
  ⟨(channelMask_desc releaseBuild natTables natFormatData
      { rawFormat with fBackend := GrBackendApi.kVulkan }).1 rfl,
   (channelMask_desc releaseBuild natTables natFormatData
      (mockFormat (.other 5) .kNone false)).2 rfl rfl⟩

/-- The copy constructor on a valid Mock format. -/
theorem copy_mock (cfg : Build) (ops : GrBackendFormatData P D) (raw f : GrBackendFormat P)
    (hv : f.fValid = true) (ht : f.fBackend = GrBackendApi.kMock) :
    copy cfg ops raw f =
      .ok { raw with fBackend := .kMock, fValid := true, fTextureType := f.fTextureType,
                     fFormatData := none, fMock := f.fMock } := by
  simp [copy, hv, ht]

/-- The copy constructor on a valid Direct3D format in a Direct3D build. -/
theorem copy_dxgi (cfg : Build) (ops : GrBackendFormatData P D) (raw f : GrBackendFormat P)
    (hv : f.fValid = true) (ht : f.fBackend = GrBackendApi.kDirect3D)
    (hd : cfg.SK_DIRECT3D = true) :
    copy cfg ops raw f =
      .ok { raw with fBackend := .kDirect3D, fValid := true, fTextureType := f.fTextureType,
                     fFormatData := none, fDxgiFormat := f.fDxgiFormat } := by
  simp [copy, hv, ht, hd]

/-- The copy constructor on an invalid format. -/
theorem copy_invalid (cfg : Build) (ops : GrBackendFormatData P D) (raw f : GrBackendFormat P)
    (hv : f.fValid = false) :
    copy cfg ops raw f =
      .ok { raw with fBackend := f.fBackend, fValid := false, fTextureType := f.fTextureType,
                     fFormatData := none } := by
  simp [copy, hv]

/-- The copy constructor on a valid payload-backed format that holds `p`. -/
theorem copy_payload (cfg : Build) (ops : GrBackendFormatData P D) (raw f : GrBackendFormat P)
    (p : P) (hv : f.fValid = true)
    (ht : f.fBackend = GrBackendApi.kOpenGL ∨ f.fBackend = GrBackendApi.kVulkan ∨
          f.fBackend = GrBackendApi.kMetal)
    (hp : f.fFormatData = some p) :
    copy cfg ops raw f =
      .ok { raw with fBackend := f.fBackend, fValid := true, fTextureType := f.fTextureType,
                     fFormatData := some (ops.copyTo p) } := by
  rcases ht with ht | ht | ht <;> simp [copy, hv, ht, hp]

/-- Whatever `makeTexture2D()` returns has texture type 2D and the tag and
validity of the original. -/
theorem makeTexture2D_ok_fields (cfg : Build) (ops : GrBackendFormatData P D)
    (raw f g : GrBackendFormat P) (h : makeTexture2D cfg ops raw f = .ok g) :
    g.fTextureType = GrTextureType.k2D ∧ g.fBackend = f.fBackend ∧ g.fValid = f.fValid := by
  unfold makeTexture2D copy at h
  cases hv : f.fValid <;> cases hb : f.fBackend <;> cases hp : f.fFormatData <;>
    cases hd : cfg.SK_DIRECT3D <;> simp [hv, hb, hp, hd] at h <;> simp [← h]

/-- The result of `makeTexture2D()` on a valid Mock format. -/
theorem makeTexture2D_mock (cfg : Build) (ops : GrBackendFormatData P D)
    (raw f : GrBackendFormat P) (hv : f.fValid = true) (ht : f.fBackend = GrBackendApi.kMock) :
    makeTexture2D cfg ops raw f =
      .ok { raw with fBackend := .kMock, fValid := true, fTextureType := .k2D,
                     fFormatData := none, fMock := f.fMock } := by
  simp [makeTexture2D, copy_mock cfg ops raw f hv ht, ht]

/-- The result of `makeTexture2D()` on a valid Direct3D format in a Direct3D
build. -/
theorem makeTexture2D_dxgi (cfg : Build) (ops : GrBackendFormatData P D)
    (raw f : GrBackendFormat P) (hv : f.fValid = true)
    (ht : f.fBackend = GrBackendApi.kDirect3D) (hd : cfg.SK_DIRECT3D = true) :
    makeTexture2D cfg ops raw f =
      .ok { raw with fBackend := .kDirect3D, fValid := true, fTextureType := .k2D,
                     fFormatData := none, fDxgiFormat := f.fDxgiFormat } := by
  simp [makeTexture2D, copy_dxgi cfg ops raw f hv ht hd, ht]

/-- The result of `makeTexture2D()` on a valid OpenGL or Metal format that
holds `p`: the
payload of the result is the copy of `p`. -/
theorem makeTexture2D_gl_metal (cfg : Build) (ops : GrBackendFormatData P D)
    (raw f : GrBackendFormat P) (p : P) (hv : f.fValid = true)
    (ht : f.fBackend = GrBackendApi.kOpenGL ∨ f.fBackend = GrBackendApi.kMetal)
    (hp : f.fFormatData = some p) :
    makeTexture2D cfg ops raw f =
      .ok { raw with fBackend := f.fBackend, fValid := true, fTextureType := .k2D,
                     fFormatData := some (ops.copyTo p) } := by
  have ht3 : f.fBackend = GrBackendApi.kOpenGL ∨ f.fBackend = GrBackendApi.kVulkan ∨
      f.fBackend = GrBackendApi.kMetal := by
    rcases ht with ht | ht
    · exact Or.inl ht
    · exact Or.inr (Or.inr ht)
  have hnv : f.fBackend ≠ GrBackendApi.kVulkan := by
    rcases ht with ht | ht <;> simp [ht]
  simp [makeTexture2D, copy_payload cfg ops raw f p hv ht3 hp, hnv]

/-- The result of `makeTexture2D()` on a valid Vulkan format that holds `p`:
the payload of
the result is the normalised copy of `p`. -/
theorem makeTexture2D_vulkan (cfg : Build) (ops : GrBackendFormatData P D)
    (raw f : GrBackendFormat P) (p : P) (hv : f.fValid = true)
    (ht : f.fBackend = GrBackendApi.kVulkan) (hp : f.fFormatData = some p) :
    makeTexture2D cfg ops raw f =
      .ok { raw with fBackend := .kVulkan, fValid := true, fTextureType := .k2D,
                     fFormatData := some (ops.makeTexture2D (ops.copyTo p)) } := by
  simp [makeTexture2D, copy_payload cfg ops raw f p hv (Or.inr (Or.inl ht)) hp, ht]

/-- The result of `makeTexture2D()` on an invalid format that is not tagged
Vulkan. -/
theorem makeTexture2D_invalid (cfg : Build) (ops : GrBackendFormatData P D)
    (raw f : GrBackendFormat P) (hv : f.fValid = false)
    (ht : f.fBackend ≠ GrBackendApi.kVulkan) :
    makeTexture2D cfg ops raw f =
      .ok { raw with fBackend := f.fBackend, fValid := false, fTextureType := .k2D,
                     fFormatData := none } := by
  simp [makeTexture2D, copy_invalid cfg ops raw f hv, ht]

/-- C8 as stated fails on invalid formats. `invalid2D` is what `makeTexture2D()`
returns on the default-constructed format: it has texture type 2D, and
`invalid2D.makeTexture2D()` returns `invalid2D` again, yet
`invalid2D.makeTexture2D() == invalid2D` is false. -/
theorem makeTexture2D_invalid_not_equal :
    makeTexture2D releaseBuild natFormatData rawFormat (ctorDefault rawFormat) = .ok invalid2D ∧
    invalid2D.textureType = GrTextureType.k2D ∧
    makeTexture2D releaseBuild natFormatData rawFormat invalid2D = .ok invalid2D ∧
    operator_eq releaseBuild natFormatData invalid2D invalid2D = .ok false := by
  refine ⟨rfl, rfl, rfl, rfl⟩

/-- C8, amended: whatever `makeTexture2D()` returns has texture type 2D and the
tag and validity of `f`. It returns on every valid Mock format and, in a
Direct3D build, on every valid Direct3D format; when such an `f` already has
texture type 2D the result is a value-equal copy (`result == f` is true; tag,
texture type and the inline field of the tag agree). On a valid OpenGL, Vulkan
or Metal format holding a payload it returns, and `result == f` is what the
payload's `equal` says of the copied (for Vulkan: copied and normalised)
payload against the original. On an invalid format not tagged Vulkan it returns
an invalid format, and `result == f` is false. -/
theorem makeTexture2D_value (cfg : Build) (ops : GrBackendFormatData P D)
    (raw f : GrBackendFormat P) :
    (∀ g, makeTexture2D cfg ops raw f = .ok g →
        g.textureType = GrTextureType.k2D ∧ g.backend = f.backend ∧ g.isValid = f.isValid) ∧
    (f.isValid = true → f.backend = GrBackendApi.kMock →
        ∃ g, makeTexture2D cfg ops raw f = .ok g ∧ g.fMock = f.fMock ∧
          (f.textureType = GrTextureType.k2D →
            operator_eq cfg ops g f = .ok true ∧ g.textureType = f.textureType)) ∧
    (f.isValid = true → f.backend = GrBackendApi.kDirect3D → cfg.SK_DIRECT3D = true →
        ∃ g, makeTexture2D cfg ops raw f = .ok g ∧ g.fDxgiFormat = f.fDxgiFormat ∧
          (f.textureType = GrTextureType.k2D →
            operator_eq cfg ops g f = .ok true ∧ g.textureType = f.textureType)) ∧
    (∀ p, f.isValid = true → f.fFormatData = some p →
        (f.backend = GrBackendApi.kOpenGL ∨ f.backend = GrBackendApi.kMetal →
          ∃ g, makeTexture2D cfg ops raw f = .ok g ∧
            operator_eq cfg ops g f = .ok (ops.equal (ops.copyTo p) (some p))) ∧
        (f.backend = GrBackendApi.kVulkan →
          ∃ g, makeTexture2D cfg ops raw f = .ok g ∧
            operator_eq cfg ops g f
              = .ok (ops.equal (ops.makeTexture2D (ops.copyTo p)) (some p)))) ∧
    (f.isValid = false → f.backend ≠ GrBackendApi.kVulkan →
        ∃ g, makeTexture2D cfg ops raw f = .ok g ∧ g.isValid = false ∧
          operator_eq cfg ops g f = .ok false) := by
  simp only [isValid, backend, textureType]
  refine ⟨fun g h => makeTexture2D_ok_fields cfg ops raw f g h, ?_, ?_, ?_, ?_⟩
  · intro hv ht
    refine ⟨_, makeTexture2D_mock cfg ops raw f hv ht, rfl, fun h2 => ?_⟩
    simp [operator_eq, hv, ht, h2]
  · intro hv ht hd
    refine ⟨_, makeTexture2D_dxgi cfg ops raw f hv ht hd, rfl, fun h2 => ?_⟩
    simp [operator_eq, hv, ht, hd, h2]
  · intro p hv hp
    refine ⟨fun ht => ?_, fun ht => ?_⟩
    · refine ⟨_, makeTexture2D_gl_metal cfg ops raw f p hv ht hp, ?_⟩
      rcases ht with ht | ht <;> simp [operator_eq, hv, ht, hp]
    · refine ⟨_, makeTexture2D_vulkan cfg ops raw f p hv ht hp, ?_⟩
      simp [operator_eq, hv, ht, hp]
  · intro hv ht
    refine ⟨_, makeTexture2D_invalid cfg ops raw f hv ht, rfl, ?_⟩
    simp [operator_eq, hv]

/-- C8, amended, at concrete inputs: a Mock format of texture type 2D is equal
to its `makeTexture2D()` result, and an invalid one is not. -/
theorem makeTexture2D_value_witness :
    (∃ g, makeTexture2D debugBuild natFormatData rawFormat (mockFormat (.other 1) .kNone false)
        = .ok g ∧ g.fMock = (mockFormat (.other 1) .kNone false).fMock ∧
        ((mockFormat (.other 1) .kNone false).textureType = GrTextureType.k2D →
          operator_eq debugBuild natFormatData g (mockFormat (.other 1) .kNone false) = .ok true ∧
          g.textureType = (mockFormat (.other 1) .kNone false).textureType)) ∧
    (∃ g, makeTexture2D debugBuild natFormatData rawFormat invalid2D = .ok g ∧
        g.isValid = false ∧ operator_eq debugBuild natFormatData g invalid2D = .ok false) :=
  ⟨(makeTexture2D_value debugBuild natFormatData rawFormat
      (mockFormat (.other 1) .kNone false)).2.1 rfl rfl,
   (makeTexture2D_value debugBuild natFormatData rawFormat invalid2D).2.2.2.2 rfl (by decide)⟩

/-- C9 as stated fails for OpenGL and Metal. On a valid OpenGL format and on a
valid Metal format holding payload 7, with a payload implementation whose
`makeTexture2D` turns 7 into 107, `makeTexture2D()` returns a format holding
the plain copy 7, not the normalised copy 107. -/
theorem makeTexture2D_opengl_metal_plain_copy :
    makeTexture2D releaseBuild natFormatData rawFormat (payloadFormat .kOpenGL (.other 1) 7)
        = .ok (payloadFormat .kOpenGL .k2D 7) ∧
    makeTexture2D releaseBuild natFormatData rawFormat (payloadFormat .kMetal (.other 1) 7)
        = .ok (payloadFormat .kMetal .k2D 7) ∧
    natFormatData.makeTexture2D (natFormatData.copyTo 7) = 107 ∧
    (payloadFormat .kOpenGL .k2D 7).fFormatData
        ≠ some (natFormatData.makeTexture2D (natFormatData.copyTo 7)) ∧
    (payloadFormat .kMetal .k2D 7).fFormatData
        ≠ some (natFormatData.makeTexture2D (natFormatData.copyTo 7)) := by
  refine ⟨rfl, rfl, rfl, by decide, by decide⟩

/-- C9, amended: the payload's own `makeTexture2D()` is applied for Vulkan only.
On a valid Vulkan format holding `p` the result holds the payload's
normalisation of the copy of `p`; on a valid OpenGL or Metal format holding `p`
the result holds the plain copy of `p`. On a valid Mock format and, in a
Direct3D build, a valid Direct3D format the result holds no payload and is the
same for every payload implementation, so no payload operation is invoked. -/
theorem makeTexture2D_payload (cfg : Build) (ops : GrBackendFormatData P D)
    (raw f : GrBackendFormat P) (hv : f.isValid = true) :
    (∀ p, f.backend = GrBackendApi.kVulkan → f.fFormatData = some p →
        ∃ g, makeTexture2D cfg ops raw f = .ok g ∧
          g.fFormatData = some (ops.makeTexture2D (ops.copyTo p))) ∧
    (∀ p, f.backend = GrBackendApi.kOpenGL ∨ f.backend = GrBackendApi.kMetal →
        f.fFormatData = some p →
        ∃ g, makeTexture2D cfg ops raw f = .ok g ∧ g.fFormatData = some (ops.copyTo p)) ∧
    (f.backend = GrBackendApi.kMock ∨
        (f.backend = GrBackendApi.kDirect3D ∧ cfg.SK_DIRECT3D = true) →
        (∃ g, makeTexture2D cfg ops raw f = .ok g ∧ g.fFormatData = none) ∧
        ∀ ops' : GrBackendFormatData P D,
          makeTexture2D cfg ops' raw f = makeTexture2D cfg ops raw f) := by
  simp only [isValid, backend] at *
  refine ⟨fun p ht hp => ⟨_, makeTexture2D_vulkan cfg ops raw f p hv ht hp, rfl⟩,
    fun p ht hp => ⟨_, makeTexture2D_gl_metal cfg ops raw f p hv ht hp, rfl⟩, ?_⟩
  rintro (ht | ⟨ht, hd⟩)
  · refine ⟨⟨_, makeTexture2D_mock cfg ops raw f hv ht, rfl⟩, fun ops' => ?_⟩
    rw [makeTexture2D_mock cfg ops raw f hv ht, makeTexture2D_mock cfg ops' raw f hv ht]
  · refine ⟨⟨_, makeTexture2D_dxgi cfg ops raw f hv ht hd, rfl⟩, fun ops' => ?_⟩
    rw [makeTexture2D_dxgi cfg ops raw f hv ht hd, makeTexture2D_dxgi cfg ops' raw f hv ht hd]

/-- C9, amended, at a concrete input: a valid Vulkan format holding payload 7
comes back holding 107, the normalised copy. -/
theorem makeTexture2D_payload_witness :
    ∃ g, makeTexture2D releaseBuild natFormatData rawFormat (payloadFormat .kVulkan (.other 1) 7)
        = .ok g ∧
      g.fFormatData = some (natFormatData.makeTexture2D (natFormatData.copyTo 7)) :=
  (makeTexture2D_payload releaseBuild natFormatData rawFormat
    (payloadFormat .kVulkan (.other 1) 7) rfl).1 7 rfl rfl

end Format

section Protected

variable {T R : Type}

/-- C10: `isProtected()` on textures and render targets. It returns false on an
invalid handle and on a valid handle tagged Direct3D, Metal or Unsupported; on
a valid Mock handle it returns the protected flag of the inline Mock info; on a
valid OpenGL or Vulkan handle holding a payload it returns the payload's
`isProtected()`. So it can return true only when the tag is OpenGL, Vulkan or
Mock. -/
theorem isProtected_by_tag (ops : ProtectedQuery T) (opsR : ProtectedQuery R)
    (t : GrBackendTexture T) (r : GrBackendRenderTarget R) :
    ((t.isValid = false → t.isProtected ops = .ok false) ∧
      (t.isValid = true →
        t.backend = GrBackendApi.kDirect3D ∨ t.backend = GrBackendApi.kMetal ∨
          t.backend = GrBackendApi.kUnsupported →
        t.isProtected ops = .ok false) ∧
      (t.isValid = true → t.backend = GrBackendApi.kMock →
        t.isProtected ops = .ok t.fMockInfo.fProtected) ∧
      (∀ p, t.isValid = true →
        t.backend = GrBackendApi.kOpenGL ∨ t.backend = GrBackendApi.kVulkan →
        t.fTextureData = some p → t.isProtected ops = .ok (ops.isProtected p)) ∧
      (t.isProtected ops = .ok true →
        t.backend = GrBackendApi.kOpenGL ∨ t.backend = GrBackendApi.kVulkan ∨
          t.backend = GrBackendApi.kMock)) ∧
    ((r.isValid = false → r.isProtected opsR = .ok false) ∧
      (r.isValid = true →
        r.backend = GrBackendApi.kDirect3D ∨ r.backend = GrBackendApi.kMetal ∨
          r.backend = GrBackendApi.kUnsupported →
        r.isProtected opsR = .ok false) ∧
      (r.isValid = true → r.backend = GrBackendApi.kMock →
        r.isProtected opsR = .ok r.fMockInfo.fProtected) ∧
      (∀ p, r.isValid = true →
        r.backend = GrBackendApi.kOpenGL ∨ r.backend = GrBackendApi.kVulkan →
        r.fRTData = some p → r.isProtected opsR = .ok (opsR.isProtected p)) ∧
      (r.isProtected opsR = .ok true →
        r.backend = GrBackendApi.kOpenGL ∨ r.backend = GrBackendApi.kVulkan ∨
          r.backend = GrBackendApi.kMock)) := by
  constructor
  · refine ⟨fun h => ?_, fun hv ht => ?_, fun hv ht => ?_, fun p hv ht hp => ?_, fun h => ?_⟩
    · simp [GrBackendTexture.isProtected, h]
    · rcases ht with ht | ht | ht <;> simp [GrBackendTexture.isProtected, hv, ht]
    · simp [GrBackendTexture.isProtected, hv, ht, GrMockTextureInfo.isProtected]
    · rcases ht with ht | ht <;> simp [GrBackendTexture.isProtected, hv, ht, hp]
    · unfold GrBackendTexture.isProtected at h
      cases hb : t.backend <;> simp [hb] at h ⊢
  · refine ⟨fun h => ?_, fun hv ht => ?_, fun hv ht => ?_, fun p hv ht hp => ?_, fun h => ?_⟩
    · simp [GrBackendRenderTarget.isProtected, h]
    · rcases ht with ht | ht | ht <;> simp [GrBackendRenderTarget.isProtected, hv, ht]
    · simp [GrBackendRenderTarget.isProtected, hv, ht, GrMockRenderTargetInfo.isProtected]
    · rcases ht with ht | ht <;> simp [GrBackendRenderTarget.isProtected, hv, ht, hp]
    · unfold GrBackendRenderTarget.isProtected at h
      cases hb : r.backend <;> simp [hb] at h ⊢

/-- C10 at concrete inputs: a valid Direct3D texture is not protected whatever
its members hold, and a valid Mock render target with the protected flag set
is. -/
theorem isProtected_by_tag_witness :
    GrBackendTexture.isProtected boolProtected
        { rawTexture with fIsValid := true, fBackend := GrBackendApi.kDirect3D,
                          fTextureData := some true,
                          fMockInfo := { rawTexture.fMockInfo with fProtected := true } }
      = .ok false ∧
    GrBackendRenderTarget.isProtected boolProtected
        { rawRenderTarget with fIsValid := true,
                               fMockInfo := { rawRenderTarget.fMockInfo with fProtected := true } }
      = .ok true :=
  ⟨(isProtected_by_tag boolProtected boolProtected
      { rawTexture with fIsValid := true, fBackend := GrBackendApi.kDirect3D,
                        fTextureData := some true,
                        fMockInfo := { rawTexture.fMockInfo with fProtected := true } }
      rawRenderTarget).1.2.1 rfl (Or.inl rfl),
   (isProtected_by_tag boolProtected boolProtected rawTexture
      { rawRenderTarget with fIsValid := true,
                             fMockInfo := { rawRenderTarget.fMockInfo with fProtected := true } }
      ).2.2.2.1 rfl rfl⟩

end Protected

section Texture

variable {T R P S D : Type}

/-- C11: `isSameTexture`. It returns false when either texture is invalid or the
backend tags differ. On two valid Mock textures it returns true exactly when
the mock ids are equal, whatever width, height, mip state and the other mock
fields are. On two valid payload-backed textures of the same tag it returns
what the payload's `isSameTexture` returns. -/
theorem isSameTexture_by_tag (cfg : Build) (ops : GrBackendTextureData T P S) (h : D3DHeap)
    (a b : GrBackendTexture T) :
    (a.isValid = false ∨ b.isValid = false ∨ a.backend ≠ b.backend →
        a.isSameTexture cfg ops h b = .ok false) ∧
    (a.isValid = true → b.isValid = true →
      a.backend = GrBackendApi.kMock → b.backend = GrBackendApi.kMock →
        a.isSameTexture cfg ops h b = .ok (decide (a.fMockInfo.id = b.fMockInfo.id)) ∧
        (a.isSameTexture cfg ops h b = .ok true ↔ a.fMockInfo.id = b.fMockInfo.id) ∧
        (∀ a' b' : GrBackendTexture T,
          a'.isValid = true → b'.isValid = true →
          a'.backend = GrBackendApi.kMock → b'.backend = GrBackendApi.kMock →
          a'.fMockInfo.id = a.fMockInfo.id → b'.fMockInfo.id = b.fMockInfo.id →
          a'.isSameTexture cfg ops h b' = a.isSameTexture cfg ops h b)) ∧
    (∀ p, a.isValid = true → b.isValid = true → a.backend = b.backend →
      a.backend = GrBackendApi.kOpenGL ∨ a.backend = GrBackendApi.kVulkan ∨
        a.backend = GrBackendApi.kMetal →
      a.fTextureData = some p →
        a.isSameTexture cfg ops h b = .ok (ops.isSameTexture p b.fTextureData)) := by
  simp only [GrBackendTexture.isValid, GrBackendTexture.backend]
  have mock : ∀ x y : GrBackendTexture T, x.fIsValid = true → y.fIsValid = true →
      x.fBackend = GrBackendApi.kMock → y.fBackend = GrBackendApi.kMock →
      x.isSameTexture cfg ops h y = .ok (decide (x.fMockInfo.id = y.fMockInfo.id)) := by
    intro x y hx hy tx ty
    simp [GrBackendTexture.isSameTexture, GrBackendTexture.isValid, hx, hy, tx, ty]
    rfl
  refine ⟨?_, ?_, ?_⟩
  · rintro (ha | hb | hne)
    · simp [GrBackendTexture.isSameTexture, GrBackendTexture.isValid, ha]
    · simp [GrBackendTexture.isSameTexture, GrBackendTexture.isValid, hb]
    · unfold GrBackendTexture.isSameTexture
      cases a.isValid <;> cases b.isValid <;> simp [hne]
  · intro ha hb ta tb
    refine ⟨mock a b ha hb ta tb, ?_, ?_⟩
    · rw [mock a b ha hb ta tb]; simp
    · intro a' b' ha' hb' ta' tb' ia ib
      rw [mock a b ha hb ta tb, mock a' b' ha' hb' ta' tb', ia, ib]
  · intro p ha hb hab ht hp
    rcases ht with ht | ht | ht <;>
      simp [GrBackendTexture.isSameTexture, GrBackendTexture.isValid, ha, hb, ← hab, ht, hp]

/-- C11 at concrete inputs: two valid Mock textures with the same id and
different sizes are the same texture; a Mock texture and an invalid one are
not. -/
theorem isSameTexture_by_tag_witness :
    (GrBackendTexture.ctorMock rawTexture 4 4 false (mockTextureInfo 7) "a").isSameTexture
        releaseBuild boolTextureData emptyHeap
        (GrBackendTexture.ctorMock rawTexture 8 2 true (mockTextureInfo 7) "b") = .ok true ∧
    (GrBackendTexture.ctorMock rawTexture 4 4 false (mockTextureInfo 7) "a").isSameTexture
        releaseBuild boolTextureData emptyHeap rawTexture = .ok false :=
  ⟨((isSameTexture_by_tag releaseBuild boolTextureData emptyHeap
      (GrBackendTexture.ctorMock rawTexture 4 4 false (mockTextureInfo 7) "a")
      (GrBackendTexture.ctorMock rawTexture 8 2 true (mockTextureInfo 7) "b")).2.1
        rfl rfl rfl rfl).2.1.2 rfl,
   (isSameTexture_by_tag releaseBuild boolTextureData emptyHeap
      (GrBackendTexture.ctorMock rawTexture 4 4 false (mockTextureInfo 7) "a")
      rawTexture).1 (Or.inr (Or.inl rfl))⟩

/-- C12: the out-parameter accessors. `getMockTextureInfo(&out)` returns true
and sets `out` to the stored mock info when the texture is valid and
Mock-tagged; otherwise it returns false and `out` keeps its prior value `v`.
The same holds of `GrBackendRenderTarget::getMockRenderTargetInfo`, and of
`getD3DTextureResourceInfo` with the Direct3D tag, where the info written is
the stored resource info with the current state of the shared token. -/
theorem getInfo_out_param (h : D3DHeap) (t : GrBackendTexture T) (r : GrBackendRenderTarget R)
    (v : GrMockTextureInfo) (w : GrMockRenderTargetInfo) (u : GrD3DTextureResourceInfo) :
    ((t.isValid = true ∧ t.backend = GrBackendApi.kMock →
        t.getMockTextureInfo v = (true, t.fMockInfo)) ∧
      (¬ (t.isValid = true ∧ t.backend = GrBackendApi.kMock) →
        t.getMockTextureInfo v = (false, v))) ∧
    ((r.isValid = true ∧ r.backend = GrBackendApi.kMock →
        r.getMockRenderTargetInfo w = (true, r.fMockInfo)) ∧
      (¬ (r.isValid = true ∧ r.backend = GrBackendApi.kMock) →
        r.getMockRenderTargetInfo w = (false, w))) ∧
    ((t.isValid = true ∧ t.backend = GrBackendApi.kDirect3D →
        ∀ a c, t.fD3DInfo.fResourceState = some a → h.cells a = some c →
          t.getD3DTextureResourceInfo h u
            = .ok (true, { t.fD3DInfo.fTextureResourceInfo with
                            fResourceState := c.fResourceState })) ∧
      (¬ (t.isValid = true ∧ t.backend = GrBackendApi.kDirect3D) →
        t.getD3DTextureResourceInfo h u = .ok (false, u))) := by
  simp only [GrBackendTexture.isValid, GrBackendTexture.backend, GrBackendRenderTarget.isValid,
    GrBackendRenderTarget.backend]
  refine ⟨⟨?_, ?_⟩, ⟨?_, ?_⟩, ⟨?_, ?_⟩⟩
  · rintro ⟨hv, ht⟩
    simp [GrBackendTexture.getMockTextureInfo, GrBackendTexture.isValid, hv, ht]
  · intro hn
    unfold GrBackendTexture.getMockTextureInfo GrBackendTexture.isValid
    cases hv : t.fIsValid <;> cases ht : t.fBackend <;> simp_all
  · rintro ⟨hv, ht⟩
    simp [GrBackendRenderTarget.getMockRenderTargetInfo, GrBackendRenderTarget.isValid, hv, ht]
  · intro hn
    unfold GrBackendRenderTarget.getMockRenderTargetInfo GrBackendRenderTarget.isValid
    cases hv : r.fIsValid <;> cases ht : r.fBackend <;> simp_all
  · rintro ⟨hv, ht⟩ a c ha hc
    simp [GrBackendTexture.getD3DTextureResourceInfo, GrBackendTexture.isValid, hv, ht,
      GrD3DBackendSurfaceInfo.snapTextureResourceInfo, GrD3DBackendSurfaceInfo.readState, ha, hc]
  · intro hn
    unfold GrBackendTexture.getD3DTextureResourceInfo GrBackendTexture.isValid
    cases hv : t.fIsValid <;> cases ht : t.fBackend <;> simp_all

/-- C12 at concrete inputs: a valid Mock texture writes its info and returns
true; an invalid texture returns false and leaves the prior value. -/
theorem getInfo_out_param_witness :
    (GrBackendTexture.ctorMock rawTexture 4 4 false (mockTextureInfo 7) "a").getMockTextureInfo
        (mockTextureInfo 0) = (true, mockTextureInfo 7) ∧
    rawTexture.getMockTextureInfo (mockTextureInfo 0) = (false, mockTextureInfo 0) :=
  ⟨(getInfo_out_param emptyHeap
      (GrBackendTexture.ctorMock rawTexture 4 4 false (mockTextureInfo 7) "a") rawRenderTarget
      (mockTextureInfo 0) (mockRenderTargetInfo 0) (d3dResourceInfo 0 0 1)).1.1 ⟨rfl, rfl⟩,
   (getInfo_out_param emptyHeap rawTexture rawRenderTarget
      (mockTextureInfo 0) (mockRenderTargetInfo 0) (d3dResourceInfo 0 0 1)).1.2
        (by decide)⟩

/-- C13 as stated fails: `getMutableState` and `setMutableState` dereference the
payload holder without a test. On a valid Mock texture, a valid Direct3D
texture, an invalid texture and a valid Mock render target, none of which
holds a payload, neither call returns a value. -/
theorem mutableState_without_payload :
    (GrBackendTexture.ctorMock rawTexture 4 4 false (mockTextureInfo 7) "").setMutableState
        boolTextureData 1 = .error .nullDeref ∧
    (GrBackendTexture.ctorMock rawTexture 4 4 false (mockTextureInfo 7) "").getMutableState
        boolTextureData = .error .nullDeref ∧
    GrBackendTexture.getMutableState boolTextureData
        (GrBackendTexture.ctorD3DFresh emptyHeap rawTexture 4 4 (d3dResourceInfo 1 2 1) "").1
      = .error .nullDeref ∧
    (GrBackendTexture.ctorDefault rawTexture).getMutableState boolTextureData
        = .error .nullDeref ∧
    (GrBackendRenderTarget.ctorMock rawRenderTarget 4 4 1 8 (mockRenderTargetInfo 7)
        ).setMutableState boolRenderTargetData 1 = .error .nullDeref := by
  refine ⟨rfl, rfl, rfl, rfl, rfl⟩

/-- C13, amended: `getMutableState()` and `setMutableState(state)` consult
neither validity nor the backend tag. On a handle that holds a payload they
return the payload's state and set it in the payload, leaving every other
member unchanged; on a handle that holds none they dereference the empty
holder and return nothing. The handles built by the default, Mock and Direct3D
constructors hold no payload. -/
theorem mutableState_delegates (opsT : GrBackendTextureData T P S)
    (opsR : GrBackendRenderTargetData R P S) (t : GrBackendTexture T)
    (r : GrBackendRenderTarget R) (s : S) :
    ((∀ p, t.fTextureData = some p →
        t.getMutableState opsT = .ok (opsT.getMutableState p) ∧
        t.setMutableState opsT s
          = .ok { t with fTextureData := some (opsT.setMutableState p s) }) ∧
      (t.fTextureData = none →
        t.getMutableState opsT = .error .nullDeref ∧
        t.setMutableState opsT s = .error .nullDeref)) ∧
    ((∀ p, r.fRTData = some p →
        r.getMutableState opsR = .ok (opsR.getMutableState p) ∧
        r.setMutableState opsR s
          = .ok { r with fRTData := some (opsR.setMutableState p s) }) ∧
      (r.fRTData = none →
        r.getMutableState opsR = .error .nullDeref ∧
        r.setMutableState opsR s = .error .nullDeref)) ∧
    (∀ (w h : Int) (m : Bool) (i : GrMockTextureInfo) (d : GrD3DTextureResourceInfo)
        (tok : Option Nat) (l : String),
      (GrBackendTexture.ctorDefault t).fTextureData = none ∧
      (GrBackendTexture.ctorMock t w h m i l).fTextureData = none ∧
      (GrBackendTexture.ctorD3D t w h d tok l).fTextureData = none) ∧
    (∀ (w h n b : Int) (i : GrMockRenderTargetInfo) (d : GrD3DTextureResourceInfo)
        (tok : Option Nat),
      (GrBackendRenderTarget.ctorDefault r).fRTData = none ∧
      (GrBackendRenderTarget.ctorMock r w h n b i).fRTData = none ∧
      (GrBackendRenderTarget.ctorD3D r w h d tok).fRTData = none) := by
  refine ⟨⟨fun p hp => ?_, fun hp => ?_⟩, ⟨fun p hp => ?_, fun hp => ?_⟩,
    fun _ _ _ _ _ _ _ => ⟨rfl, rfl, rfl⟩, fun _ _ _ _ _ _ _ => ⟨rfl, rfl, rfl⟩⟩
  · simp [GrBackendTexture.getMutableState, GrBackendTexture.setMutableState, hp]
  · simp [GrBackendTexture.getMutableState, GrBackendTexture.setMutableState, hp]
  · simp [GrBackendRenderTarget.getMutableState, GrBackendRenderTarget.setMutableState, hp]
  · simp [GrBackendRenderTarget.getMutableState, GrBackendRenderTarget.setMutableState, hp]

/-- C13, amended, at a concrete input: a valid OpenGL texture holding the
payload `true` reports state 1, and setting state 0 stores the payload
`false`. -/
theorem mutableState_delegates_witness :
    GrBackendTexture.getMutableState boolTextureData
        { rawTexture with fIsValid := true, fBackend := GrBackendApi.kOpenGL,
                          fTextureData := some true } = .ok 1 ∧
    GrBackendTexture.setMutableState boolTextureData
        { rawTexture with fIsValid := true, fBackend := GrBackendApi.kOpenGL,
                          fTextureData := some true } 0
      = .ok { rawTexture with fIsValid := true, fBackend := GrBackendApi.kOpenGL,
                              fTextureData := some false } :=
  (mutableState_delegates boolTextureData boolRenderTargetData
    { rawTexture with fIsValid := true, fBackend := GrBackendApi.kOpenGL,
                      fTextureData := some true } rawRenderTarget 0).1.1 true rfl

/-- C14 as stated fails for four of the operations. On a valid format tagged
`kUnsupported`, `channelMask` returns 0 and `desc` returns the invalid
descriptor; on a valid texture tagged `kUnsupported`, `isSameTexture` against
itself returns false and `getBackendFormat` returns the default-constructed
format. None of them aborts. -/
theorem unrecognized_tag_returns :
    GrBackendFormat.channelMask releaseBuild natTables natFormatData
        (payloadFormat GrBackendApi.kUnsupported GrTextureType.k2D 0) = .ok 0 ∧
    GrBackendFormat.desc releaseBuild natTables natFormatData
        (payloadFormat GrBackendApi.kUnsupported GrTextureType.k2D 0) = .ok 0 ∧
    GrBackendTexture.isSameTexture releaseBuild boolTextureData emptyHeap
        { rawTexture with fIsValid := true, fBackend := GrBackendApi.kUnsupported }
        { rawTexture with fIsValid := true, fBackend := GrBackendApi.kUnsupported }
      = .ok false ∧
    GrBackendTexture.getBackendFormat releaseBuild boolTextureData emptyHeap rawFormat
        { rawTexture with fIsValid := true, fBackend := GrBackendApi.kUnsupported }
      = .ok (GrBackendFormat.ctorDefault rawFormat) := by
  refine ⟨rfl, rfl, rfl, rfl⟩

/-- C14, amended: on a valid handle whose tag no case of the switch handles
(`kUnsupported`, or `kDirect3D` in a build without Direct3D), the format copy
constructor, the format `operator==` and the copy-assignment of textures and
render targets from that handle abort. `channelMask`, `desc`, `isSameTexture`
and `getBackendFormat` do not: their default case returns 0, the invalid
descriptor, false and the default-constructed (invalid) format. -/
theorem unrecognized_tag (cfg : Build) (tbl : FormatTables D) (ops : GrBackendFormatData P D)
    (opsT : GrBackendTextureData T P S) (opsR : GrBackendRenderTargetData R P S) (h : D3DHeap)
    (raw f g : GrBackendFormat P) (t t' d : GrBackendTexture T)
    (r dr : GrBackendRenderTarget R) :
    (f.isValid = true →
      f.backend = GrBackendApi.kUnsupported ∨
        (f.backend = GrBackendApi.kDirect3D ∧ cfg.SK_DIRECT3D = false) →
      GrBackendFormat.copy cfg ops raw f = .error .abort ∧
      (g.isValid = true → g.backend = f.backend →
        GrBackendFormat.operator_eq cfg ops f g = .error .abort) ∧
      GrBackendFormat.channelMask cfg tbl ops f = .ok 0 ∧
      GrBackendFormat.desc cfg tbl ops f = .ok tbl.MakeInvalid) ∧
    (t.isValid = true →
      t.backend = GrBackendApi.kUnsupported ∨
        (t.backend = GrBackendApi.kDirect3D ∧ cfg.SK_DIRECT3D = false) →
      GrBackendTexture.operator_assign cfg opsT h false d t = .error .abort ∧
      (t'.isValid = true → t'.backend = t.backend →
        t.isSameTexture cfg opsT h t' = .ok false) ∧
      t.getBackendFormat cfg opsT h raw = .ok (GrBackendFormat.ctorDefault raw)) ∧
    (r.isValid = true →
      r.backend = GrBackendApi.kUnsupported ∨
        (r.backend = GrBackendApi.kDirect3D ∧ cfg.SK_DIRECT3D = false) →
      GrBackendRenderTarget.operator_assign cfg opsR h false dr r = .error .abort ∧
      r.getBackendFormat cfg opsR h raw = .ok (GrBackendFormat.ctorDefault raw)) := by
  simp only [GrBackendFormat.isValid, GrBackendFormat.backend, GrBackendTexture.isValid,
    GrBackendTexture.backend, GrBackendRenderTarget.isValid, GrBackendRenderTarget.backend]
  refine ⟨fun hv ht => ?_, fun hv ht => ?_, fun hv ht => ?_⟩
  · refine ⟨?_, fun hg hgt => ?_, ?_, ?_⟩
    · rcases ht with ht | ⟨ht, hd⟩ <;> simp [GrBackendFormat.copy, hv, ht, *]
    · rcases ht with ht | ⟨ht, hd⟩ <;>
        simp [GrBackendFormat.operator_eq, hv, hg, hgt, ht, *]
    · rcases ht with ht | ⟨ht, hd⟩ <;>
        simp [GrBackendFormat.channelMask, GrBackendFormat.isValid, hv, ht, *]
    · rcases ht with ht | ⟨ht, hd⟩ <;>
        simp [GrBackendFormat.desc, GrBackendFormat.isValid, hv, ht, *]
  · refine ⟨?_, fun hg hgt => ?_, ?_⟩
    · rcases ht with ht | ⟨ht, hd⟩ <;>
        simp [GrBackendTexture.operator_assign, GrBackendTexture.isValid, hv, ht, *]
    · rcases ht with ht | ⟨ht, hd⟩ <;>
        simp [GrBackendTexture.isSameTexture, GrBackendTexture.isValid, hv, hg, hgt, ht, *]
    · rcases ht with ht | ⟨ht, hd⟩ <;>
        simp [GrBackendTexture.getBackendFormat, GrBackendTexture.isValid, hv, ht, *]
  · refine ⟨?_, ?_⟩
    · rcases ht with ht | ⟨ht, hd⟩ <;>
        simp [GrBackendRenderTarget.operator_assign, GrBackendRenderTarget.isValid, hv, ht, *]
    · rcases ht with ht | ⟨ht, hd⟩ <;>
        simp [GrBackendRenderTarget.getBackendFormat, GrBackendRenderTarget.isValid, hv, ht, *]

/-- C14, amended, at concrete inputs: copying a valid format tagged
`kUnsupported` aborts, and so does assigning a valid texture tagged
`kUnsupported`. -/
theorem unrecognized_tag_witness :
    GrBackendFormat.copy releaseBuild natFormatData rawFormat
        (payloadFormat GrBackendApi.kUnsupported GrTextureType.k2D 0) = .error .abort ∧
    GrBackendTexture.operator_assign releaseBuild boolTextureData emptyHeap false rawTexture
        { rawTexture with fIsValid := true, fBackend := GrBackendApi.kUnsupported }
      = .error .abort :=
  ⟨((unrecognized_tag releaseBuild natTables natFormatData boolTextureData boolRenderTargetData
      emptyHeap rawFormat (payloadFormat GrBackendApi.kUnsupported GrTextureType.k2D 0)
      rawFormat rawTexture rawTexture rawTexture rawRenderTarget rawRenderTarget).1
        rfl (Or.inl rfl)).1,
   ((unrecognized_tag releaseBuild natTables natFormatData boolTextureData boolRenderTargetData
      emptyHeap rawFormat rawFormat rawFormat
      { rawTexture with fIsValid := true, fBackend := GrBackendApi.kUnsupported }
      rawTexture rawTexture rawRenderTarget rawRenderTarget).2.1 rfl (Or.inl rfl)).1⟩

/-- C15: the sample count of a render target. The Mock constructor builds, for
all integers, a valid Mock-tagged render target that stores sample count
`max(1, sampleCnt)` (at least 1; 1 for requests below 1, the request itself
from 1 on) and the stencil bits given. The Direct3D constructor stores the
`unsigned int` value `std::max(1U, fSampleCount)` converted to `int`: with
`fSampleCount = 2147483648` it builds a valid render target whose sample count
is `-2147483648`, below 1. -/
theorem sampleCnt_clamp (raw : GrBackendRenderTarget R) :
    (∀ (w h n b : Int) (i : GrMockRenderTargetInfo),
      (GrBackendRenderTarget.ctorMock raw w h n b i).isValid = true ∧
      (GrBackendRenderTarget.ctorMock raw w h n b i).backend = GrBackendApi.kMock ∧
      (GrBackendRenderTarget.ctorMock raw w h n b i).fSampleCnt = max 1 n ∧
      (GrBackendRenderTarget.ctorMock raw w h n b i).fStencilBits = b ∧
      1 ≤ (GrBackendRenderTarget.ctorMock raw w h n b i).fSampleCnt ∧
      (GrBackendRenderTarget.ctorMock raw w h n b i).fSampleCnt
        = if n ≤ 0 then 1 else n) ∧
    (∀ (w h : Int) (d : GrD3DTextureResourceInfo) (tok : Option Nat),
      (GrBackendRenderTarget.ctorD3D raw w h d tok).fSampleCnt
        = toInt32 (max 1 (d.fSampleCount % 2 ^ 32))) ∧
    (GrBackendRenderTarget.ctorD3D raw 1 1 (d3dResourceInfo 1 0 2147483648) (some 0)).isValid
        = true ∧
    (GrBackendRenderTarget.ctorD3D raw 1 1 (d3dResourceInfo 1 0 2147483648) (some 0)).fSampleCnt
        = -2147483648 ∧
    ¬ (1 ≤ (GrBackendRenderTarget.ctorD3D raw 1 1 (d3dResourceInfo 1 0 2147483648)
              (some 0)).fSampleCnt) := by
  have hbad : (GrBackendRenderTarget.ctorD3D raw 1 1 (d3dResourceInfo 1 0 2147483648)
      (some 0)).fSampleCnt = -2147483648 := by
    simp only [GrBackendRenderTarget.ctorD3D, d3dResourceInfo]
    decide
  refine ⟨fun w h n b i => ⟨rfl, rfl, rfl, rfl, ?_, ?_⟩, fun _ _ _ _ => rfl, rfl, hbad, ?_⟩
  · exact le_max_left 1 n
  · show max 1 n = if n ≤ 0 then 1 else n
    split
    · exact max_eq_left (by omega)
    · exact max_eq_right (by omega)
  · rw [hbad]; decide

/-- Assigning an invalid texture: the object assigned to is cleaned up and
marked invalid. -/
theorem texture_assign_invalid (cfg : Build) (ops : GrBackendTextureData T P S) (h : D3DHeap)
    (a b : GrBackendTexture T) (hv : b.fIsValid = false) :
    GrBackendTexture.operator_assign cfg ops h false a b =
      .ok ({ (GrBackendTexture.cleanup cfg h a).1 with fIsValid := false },
           (GrBackendTexture.cleanup cfg h a).2) := by
  simp [GrBackendTexture.operator_assign, GrBackendTexture.isValid, hv]

/-- Assigning a valid Mock texture: the object assigned to takes the size, mip
flag, tag, texture type and mock info of the source and becomes valid. -/
theorem texture_assign_mock (cfg : Build) (ops : GrBackendTextureData T P S) (h : D3DHeap)
    (a b : GrBackendTexture T) (hv : b.fIsValid = true) (ht : b.fBackend = GrBackendApi.kMock) :
    GrBackendTexture.operator_assign cfg ops h false a b =
      .ok ({ (GrBackendTexture.releaseOnBackendChange cfg h a b).1 with
               fWidth := b.fWidth, fHeight := b.fHeight, fMipmapped := b.fMipmapped,
               fBackend := b.fBackend, fTextureType := b.fTextureType,
               fMockInfo := b.fMockInfo, fIsValid := true },
           (GrBackendTexture.releaseOnBackendChange cfg h a b).2) := by
  simp [GrBackendTexture.operator_assign, GrBackendTexture.isValid, hv, ht]

/-- Whenever the assignment of textures returns, the object assigned to is valid
exactly when the source is. -/
theorem texture_assign_isValid (cfg : Build) (ops : GrBackendTextureData T P S) (h : D3DHeap)
    (a b : GrBackendTexture T) (r : GrBackendTexture T × D3DHeap)
    (hr : GrBackendTexture.operator_assign cfg ops h false a b = .ok r) :
    r.1.fIsValid = b.fIsValid := by
  unfold GrBackendTexture.operator_assign at hr
  cases hv : b.fIsValid <;> cases hb : b.fBackend <;> cases hp : b.fTextureData <;>
    cases hd : cfg.SK_DIRECT3D <;>
    simp [GrBackendTexture.isValid, hv, hb, hp, hd] at hr <;> simp [← hr]

/-- Assigning an invalid render target: the object assigned to is cleaned up and
marked invalid. -/
theorem renderTarget_assign_invalid (cfg : Build) (ops : GrBackendRenderTargetData R P S)
    (h : D3DHeap) (a b : GrBackendRenderTarget R) (hv : b.fIsValid = false) :
    GrBackendRenderTarget.operator_assign cfg ops h false a b =
      .ok ({ (GrBackendRenderTarget.cleanup cfg h a).1 with fIsValid := false },
           (GrBackendRenderTarget.cleanup cfg h a).2) := by
  simp [GrBackendRenderTarget.operator_assign, GrBackendRenderTarget.isValid, hv]

/-- Assigning a valid Mock render target: the object assigned to takes the size,
sample count, stencil bits, tag and mock info of the source and becomes
valid. -/
theorem renderTarget_assign_mock (cfg : Build) (ops : GrBackendRenderTargetData R P S)
    (h : D3DHeap) (a b : GrBackendRenderTarget R) (hv : b.fIsValid = true)
    (ht : b.fBackend = GrBackendApi.kMock) :
    GrBackendRenderTarget.operator_assign cfg ops h false a b =
      .ok ({ (GrBackendRenderTarget.releaseOnBackendChange cfg h a b).1 with
               fWidth := b.fWidth, fHeight := b.fHeight, fSampleCnt := b.fSampleCnt,
               fStencilBits := b.fStencilBits, fBackend := b.fBackend,
               fMockInfo := b.fMockInfo, fIsValid := true },
           (GrBackendRenderTarget.releaseOnBackendChange cfg h a b).2) := by
  simp [GrBackendRenderTarget.operator_assign, GrBackendRenderTarget.isValid, hv, ht]

/-- Whenever the assignment of render targets returns, the object assigned to is
valid exactly when the source is. -/
theorem renderTarget_assign_isValid (cfg : Build) (ops : GrBackendRenderTargetData R P S)
    (h : D3DHeap) (a b : GrBackendRenderTarget R) (r : GrBackendRenderTarget R × D3DHeap)
    (hr : GrBackendRenderTarget.operator_assign cfg ops h false a b = .ok r) :
    r.1.fIsValid = b.fIsValid := by
  unfold GrBackendRenderTarget.operator_assign at hr
  cases hv : b.fIsValid <;> cases hb : b.fBackend <;> cases hp : b.fRTData <;>
    cases hd : cfg.SK_DIRECT3D <;>
    simp [GrBackendRenderTarget.isValid, hv, hb, hp, hd] at hr <;> simp [← hr]

/-- C16: copy-assignment makes the destination a copy of the source, whatever
the destination `a` held. For textures: whenever `a = b` returns, `a` is valid
exactly when `b` is; it returns when `b` is invalid; when `b` is a valid Mock
texture it returns and `a` has the width, height, mip flag, tag, texture type
and mock info of `b`, so `TestingOnly_Equals(a, b)` holds when the mock info
equals itself; assigning a handle to itself changes nothing. The same holds for
render targets with width, height, sample count, stencil bits, tag and mock
info. The source is only read: the function gets it as a value and returns the
destination alone. -/
theorem operator_assign_copies (cfg : Build) (opsT : GrBackendTextureData T P S)
    (opsR : GrBackendRenderTargetData R P S) (h : D3DHeap) (a b : GrBackendTexture T)
    (ra rb : GrBackendRenderTarget R) :
    ((∀ r, GrBackendTexture.operator_assign cfg opsT h false a b = .ok r →
        r.1.isValid = b.isValid) ∧
      (b.isValid = false →
        ∃ r, GrBackendTexture.operator_assign cfg opsT h false a b = .ok r ∧
          r.1.isValid = false) ∧
      (b.isValid = true → b.backend = GrBackendApi.kMock →
        ∃ r, GrBackendTexture.operator_assign cfg opsT h false a b = .ok r ∧
          r.1.isValid = true ∧ r.1.fWidth = b.fWidth ∧ r.1.fHeight = b.fHeight ∧
          r.1.fMipmapped = b.fMipmapped ∧ r.1.backend = b.backend ∧
          r.1.fTextureType = b.fTextureType ∧ r.1.fMockInfo = b.fMockInfo ∧
          ∀ (mockEq : GrMockTextureInfo → GrMockTextureInfo → Bool)
            (d3dEq : GrD3DBackendSurfaceInfo → GrD3DBackendSurfaceInfo → Bool),
            mockEq b.fMockInfo b.fMockInfo = true →
            GrBackendTexture.TestingOnly_Equals cfg opsT mockEq d3dEq r.1 b = .ok true) ∧
      GrBackendTexture.operator_assign cfg opsT h true a a = .ok (a, h)) ∧
    ((∀ r, GrBackendRenderTarget.operator_assign cfg opsR h false ra rb = .ok r →
        r.1.isValid = rb.isValid) ∧
      (rb.isValid = false →
        ∃ r, GrBackendRenderTarget.operator_assign cfg opsR h false ra rb = .ok r ∧
          r.1.isValid = false) ∧
      (rb.isValid = true → rb.backend = GrBackendApi.kMock →
        ∃ r, GrBackendRenderTarget.operator_assign cfg opsR h false ra rb = .ok r ∧
          r.1.isValid = true ∧ r.1.fWidth = rb.fWidth ∧ r.1.fHeight = rb.fHeight ∧
          r.1.fSampleCnt = rb.fSampleCnt ∧ r.1.fStencilBits = rb.fStencilBits ∧
          r.1.backend = rb.backend ∧ r.1.fMockInfo = rb.fMockInfo ∧
          ∀ (mockEq : GrMockRenderTargetInfo → GrMockRenderTargetInfo → Bool)
            (d3dEq : GrD3DBackendSurfaceInfo → GrD3DBackendSurfaceInfo → Bool),
            mockEq rb.fMockInfo rb.fMockInfo = true →
            GrBackendRenderTarget.TestingOnly_Equals cfg opsR mockEq d3dEq r.1 rb = .ok true) ∧
      GrBackendRenderTarget.operator_assign cfg opsR h true ra ra = .ok (ra, h)) := by
  simp only [GrBackendTexture.isValid, GrBackendTexture.backend, GrBackendRenderTarget.isValid,
    GrBackendRenderTarget.backend]
  refine ⟨⟨fun r hr => texture_assign_isValid cfg opsT h a b r hr,
      fun hv => ⟨_, texture_assign_invalid cfg opsT h a b hv, rfl⟩,
      fun hv ht => ⟨_, texture_assign_mock cfg opsT h a b hv ht, rfl, rfl, rfl, rfl, rfl, rfl,
        rfl, fun mockEq d3dEq hm => ?_⟩, ?_⟩,
    ⟨fun r hr => renderTarget_assign_isValid cfg opsR h ra rb r hr,
      fun hv => ⟨_, renderTarget_assign_invalid cfg opsR h ra rb hv, rfl⟩,
      fun hv ht => ⟨_, renderTarget_assign_mock cfg opsR h ra rb hv ht, rfl, rfl, rfl, rfl, rfl,
        rfl, rfl, fun mockEq d3dEq hm => ?_⟩, ?_⟩⟩
  · simp [GrBackendTexture.TestingOnly_Equals, GrBackendTexture.isValid, hv, ht, hm]
  · simp [GrBackendTexture.operator_assign]
  · simp [GrBackendRenderTarget.TestingOnly_Equals, GrBackendRenderTarget.isValid, hv, ht, hm]
  · simp [GrBackendRenderTarget.operator_assign]

/-- C16 at concrete inputs: assigning a valid Mock texture over an invalid one
makes it valid with the size of the source, and assigning an invalid texture
over a valid Mock texture makes it invalid. -/
theorem operator_assign_copies_witness :
    (∃ r, GrBackendTexture.operator_assign releaseBuild boolTextureData emptyHeap false
          rawTexture (GrBackendTexture.ctorMock rawTexture 4 3 true (mockTextureInfo 7) "b")
        = .ok r ∧
      r.1.isValid = true ∧ r.1.fWidth = 4 ∧ r.1.fHeight = 3) ∧
    (∃ r, GrBackendTexture.operator_assign releaseBuild boolTextureData emptyHeap false
          (GrBackendTexture.ctorMock rawTexture 4 3 true (mockTextureInfo 7) "b") rawTexture
        = .ok r ∧
      r.1.isValid = false) :=
  ⟨match (operator_assign_copies releaseBuild boolTextureData boolRenderTargetData emptyHeap
        rawTexture (GrBackendTexture.ctorMock rawTexture 4 3 true (mockTextureInfo 7) "b")
        rawRenderTarget rawRenderTarget).1.2.2.1 rfl rfl with
    | ⟨r, hr, hv, hw, hh, _⟩ => ⟨r, hr, hv, hw, hh⟩,
   (operator_assign_copies releaseBuild boolTextureData boolRenderTargetData emptyHeap
      (GrBackendTexture.ctorMock rawTexture 4 3 true (mockTextureInfo 7) "b") rawTexture
      rawRenderTarget rawRenderTarget).1.2.1 rfl⟩

/-- When `TestingOnly_Equals` returns true on two textures, they agree on width,
height, mip flag and tag. -/
theorem texture_TestingOnly_Equals_fields (cfg : Build) (ops : GrBackendTextureData T P S)
    (mockEq : GrMockTextureInfo → GrMockTextureInfo → Bool)
    (d3dEq : GrD3DBackendSurfaceInfo → GrD3DBackendSurfaceInfo → Bool)
    (t0 t1 : GrBackendTexture T)
    (h : GrBackendTexture.TestingOnly_Equals cfg ops mockEq d3dEq t0 t1 = .ok true) :
    t0.fIsValid = true ∧ t1.fIsValid = true ∧ t0.fWidth = t1.fWidth ∧
      t0.fHeight = t1.fHeight ∧ t0.fMipmapped = t1.fMipmapped ∧ t0.fBackend = t1.fBackend := by
  unfold GrBackendTexture.TestingOnly_Equals GrBackendTexture.isValid at h
  by_cases hw : t0.fWidth = t1.fWidth <;> by_cases hh : t0.fHeight = t1.fHeight <;>
    by_cases hm : t0.fMipmapped = t1.fMipmapped <;> by_cases hb : t0.fBackend = t1.fBackend <;>
    cases h0 : t0.fIsValid <;> cases h1 : t1.fIsValid <;> simp_all

/-- When `TestingOnly_Equals` returns true on two render targets, they agree on
width, height, sample count, stencil bits and tag. -/
theorem renderTarget_TestingOnly_Equals_fields (cfg : Build)
    (ops : GrBackendRenderTargetData R P S)
    (mockEq : GrMockRenderTargetInfo → GrMockRenderTargetInfo → Bool)
    (d3dEq : GrD3DBackendSurfaceInfo → GrD3DBackendSurfaceInfo → Bool)
    (r0 r1 : GrBackendRenderTarget R)
    (h : GrBackendRenderTarget.TestingOnly_Equals cfg ops mockEq d3dEq r0 r1 = .ok true) :
    r0.fIsValid = true ∧ r1.fIsValid = true ∧ r0.fWidth = r1.fWidth ∧
      r0.fHeight = r1.fHeight ∧ r0.fSampleCnt = r1.fSampleCnt ∧
      r0.fStencilBits = r1.fStencilBits ∧ r0.fBackend = r1.fBackend := by
  unfold GrBackendRenderTarget.TestingOnly_Equals GrBackendRenderTarget.isValid at h
  by_cases hw : r0.fWidth = r1.fWidth <;> by_cases hh : r0.fHeight = r1.fHeight <;>
    by_cases hm : r0.fSampleCnt = r1.fSampleCnt <;>
    by_cases hs : r0.fStencilBits = r1.fStencilBits <;>
    by_cases hb : r0.fBackend = r1.fBackend <;>
    cases h0 : r0.fIsValid <;> cases h1 : r1.fIsValid <;> simp_all

/-- C17: `TestingOnly_Equals` is a strict structural equality. On textures it
returns false when either is invalid; when it returns true the two agree on
width, height, mip flag and tag; on two valid Mock textures it returns a value,
which is true exactly when those four agree and the mock infos are equal.
Likewise on render targets with width, height, sample count, stencil bits and
tag. -/
theorem TestingOnly_Equals_strict (cfg : Build) (opsT : GrBackendTextureData T P S)
    (opsR : GrBackendRenderTargetData R P S)
    (mockEqT : GrMockTextureInfo → GrMockTextureInfo → Bool)
    (mockEqR : GrMockRenderTargetInfo → GrMockRenderTargetInfo → Bool)
    (d3dEq : GrD3DBackendSurfaceInfo → GrD3DBackendSurfaceInfo → Bool)
    (t0 t1 : GrBackendTexture T) (r0 r1 : GrBackendRenderTarget R) :
    ((t0.isValid = false ∨ t1.isValid = false →
        GrBackendTexture.TestingOnly_Equals cfg opsT mockEqT d3dEq t0 t1 = .ok false) ∧
      (GrBackendTexture.TestingOnly_Equals cfg opsT mockEqT d3dEq t0 t1 = .ok true →
        t0.fWidth = t1.fWidth ∧ t0.fHeight = t1.fHeight ∧ t0.fMipmapped = t1.fMipmapped ∧
        t0.backend = t1.backend) ∧
      (t0.isValid = true → t1.isValid = true →
        t0.backend = GrBackendApi.kMock → t1.backend = GrBackendApi.kMock →
        (∃ v, GrBackendTexture.TestingOnly_Equals cfg opsT mockEqT d3dEq t0 t1 = .ok v) ∧
        (GrBackendTexture.TestingOnly_Equals cfg opsT mockEqT d3dEq t0 t1 = .ok true ↔
          t0.fWidth = t1.fWidth ∧ t0.fHeight = t1.fHeight ∧ t0.fMipmapped = t1.fMipmapped ∧
          t0.backend = t1.backend ∧ mockEqT t0.fMockInfo t1.fMockInfo = true))) ∧
    ((r0.isValid = false ∨ r1.isValid = false →
        GrBackendRenderTarget.TestingOnly_Equals cfg opsR mockEqR d3dEq r0 r1 = .ok false) ∧
      (GrBackendRenderTarget.TestingOnly_Equals cfg opsR mockEqR d3dEq r0 r1 = .ok true →
        r0.fWidth = r1.fWidth ∧ r0.fHeight = r1.fHeight ∧ r0.fSampleCnt = r1.fSampleCnt ∧
        r0.fStencilBits = r1.fStencilBits ∧ r0.backend = r1.backend) ∧
      (r0.isValid = true → r1.isValid = true →
        r0.backend = GrBackendApi.kMock → r1.backend = GrBackendApi.kMock →
        (∃ v, GrBackendRenderTarget.TestingOnly_Equals cfg opsR mockEqR d3dEq r0 r1 = .ok v) ∧
        (GrBackendRenderTarget.TestingOnly_Equals cfg opsR mockEqR d3dEq r0 r1 = .ok true ↔
          r0.fWidth = r1.fWidth ∧ r0.fHeight = r1.fHeight ∧ r0.fSampleCnt = r1.fSampleCnt ∧
          r0.fStencilBits = r1.fStencilBits ∧ r0.backend = r1.backend ∧
          mockEqR r0.fMockInfo r1.fMockInfo = true))) := by
  simp only [GrBackendTexture.isValid, GrBackendTexture.backend, GrBackendRenderTarget.isValid,
    GrBackendRenderTarget.backend]
  refine ⟨⟨?_, ?_, ?_⟩, ⟨?_, ?_, ?_⟩⟩
  · rintro (hv | hv) <;>
      simp [GrBackendTexture.TestingOnly_Equals, GrBackendTexture.isValid, hv]
  · intro h
    obtain ⟨_, _, hw, hh, hm, hb⟩ :=
      texture_TestingOnly_Equals_fields cfg opsT mockEqT d3dEq t0 t1 h
    exact ⟨hw, hh, hm, hb⟩
  · intro h0 h1 b0 b1
    refine ⟨?_, ?_⟩
    · simp only [GrBackendTexture.TestingOnly_Equals, GrBackendTexture.isValid, h0, h1, b0, b1]
      split
      · exact ⟨_, rfl⟩
      · split <;> exact ⟨_, rfl⟩
    · constructor
      · intro h
        obtain ⟨_, _, hw, hh, hm, hb⟩ :=
          texture_TestingOnly_Equals_fields cfg opsT mockEqT d3dEq t0 t1 h
        refine ⟨hw, hh, hm, hb, ?_⟩
        simpa [GrBackendTexture.TestingOnly_Equals, GrBackendTexture.isValid, h0, h1, b0, b1,
          hw, hh, hm] using h
      · rintro ⟨hw, hh, hm, _, he⟩
        simp [GrBackendTexture.TestingOnly_Equals, GrBackendTexture.isValid, h0, h1, b0, b1,
          hw, hh, hm, he]
  · rintro (hv | hv) <;>
      simp [GrBackendRenderTarget.TestingOnly_Equals, GrBackendRenderTarget.isValid, hv]
  · intro h
    obtain ⟨_, _, hw, hh, hm, hs, hb⟩ :=
      renderTarget_TestingOnly_Equals_fields cfg opsR mockEqR d3dEq r0 r1 h
    exact ⟨hw, hh, hm, hs, hb⟩
  · intro h0 h1 b0 b1
    refine ⟨?_, ?_⟩
    · simp only [GrBackendRenderTarget.TestingOnly_Equals, GrBackendRenderTarget.isValid, h0, h1,
        b0, b1]
      split
      · exact ⟨_, rfl⟩
      · split <;> exact ⟨_, rfl⟩
    · constructor
      · intro h
        obtain ⟨_, _, hw, hh, hm, hs, hb⟩ :=
          renderTarget_TestingOnly_Equals_fields cfg opsR mockEqR d3dEq r0 r1 h
        refine ⟨hw, hh, hm, hs, hb, ?_⟩
        simpa [GrBackendRenderTarget.TestingOnly_Equals, GrBackendRenderTarget.isValid, h0, h1,
          b0, b1, hw, hh, hm, hs] using h
      · rintro ⟨hw, hh, hm, hs, _, he⟩
        simp [GrBackendRenderTarget.TestingOnly_Equals, GrBackendRenderTarget.isValid, h0, h1,
          b0, b1, hw, hh, hm, hs, he]

/-- C17 at concrete inputs, with the mock infos compared field by field: two
Mock textures that differ in width only are not equal, and a Mock texture is
equal to one built from the same arguments. -/
theorem TestingOnly_Equals_strict_witness :
    GrBackendTexture.TestingOnly_Equals releaseBuild boolTextureData
        (fun x y => decide (x = y)) (fun x y => decide (x = y))
        (GrBackendTexture.ctorMock rawTexture 4 3 true (mockTextureInfo 7) "a")
        (GrBackendTexture.ctorMock rawTexture 5 3 true (mockTextureInfo 7) "a") ≠ .ok true ∧
    GrBackendTexture.TestingOnly_Equals releaseBuild boolTextureData
        (fun x y => decide (x = y)) (fun x y => decide (x = y))
        (GrBackendTexture.ctorMock rawTexture 4 3 true (mockTextureInfo 7) "a")
        (GrBackendTexture.ctorMock rawTexture 4 3 true (mockTextureInfo 7) "b") = .ok true :=
  ⟨fun h => absurd ((TestingOnly_Equals_strict releaseBuild boolTextureData boolRenderTargetData
      (fun x y => decide (x = y)) (fun x y => decide (x = y)) (fun x y => decide (x = y))
      (GrBackendTexture.ctorMock rawTexture 4 3 true (mockTextureInfo 7) "a")
      (GrBackendTexture.ctorMock rawTexture 5 3 true (mockTextureInfo 7) "a")
      rawRenderTarget rawRenderTarget).1.2.1 h).1 (by decide),
   ((TestingOnly_Equals_strict releaseBuild boolTextureData boolRenderTargetData
      (fun x y => decide (x = y)) (fun x y => decide (x = y)) (fun x y => decide (x = y))
      (GrBackendTexture.ctorMock rawTexture 4 3 true (mockTextureInfo 7) "a")
      (GrBackendTexture.ctorMock rawTexture 4 3 true (mockTextureInfo 7) "b")
      rawRenderTarget rawRenderTarget).1.2.2 rfl rfl rfl rfl).2.2
        ⟨rfl, rfl, rfl, rfl, by decide⟩⟩

/-- Whenever the assignment of textures returns a valid object, the source is
valid and the object has its width and height. -/
theorem texture_assign_size (cfg : Build) (ops : GrBackendTextureData T P S) (h : D3DHeap)
    (a b : GrBackendTexture T) (r : GrBackendTexture T × D3DHeap)
    (hr : GrBackendTexture.operator_assign cfg ops h false a b = .ok r)
    (hv : r.1.fIsValid = true) :
    b.fIsValid = true ∧ r.1.fWidth = b.fWidth ∧ r.1.fHeight = b.fHeight := by
  have hb : b.fIsValid = true := by
    rw [← texture_assign_isValid cfg ops h a b r hr]; exact hv
  refine ⟨hb, ?_⟩
  unfold GrBackendTexture.operator_assign at hr
  cases hbk : b.fBackend <;> cases hp : b.fTextureData <;> cases hd : cfg.SK_DIRECT3D <;>
    simp [GrBackendTexture.isValid, hb, hbk, hp, hd] at hr <;> simp [← hr]

/-- C18 as stated fails: the Mock constructor called with width 0 and height -1
builds a valid texture with that width and height. -/
theorem texture_valid_nonpositive_size :
    (GrBackendTexture.ctorMock rawTexture 0 (-1) false (mockTextureInfo 7) "").isValid = true ∧
    (GrBackendTexture.ctorMock rawTexture 0 (-1) false (mockTextureInfo 7) "").fWidth = 0 ∧
    (GrBackendTexture.ctorMock rawTexture 0 (-1) false (mockTextureInfo 7) "").fHeight = -1 := by
  refine ⟨rfl, rfl, rfl⟩

/-- C18, amended: width and height are stored unchecked. The Mock and Direct3D
constructors build a valid texture with exactly the width and height they are
given, whatever their sign; a valid texture that copy-assignment returns has
the width and height of its valid source. So a texture built from positive
width and height has positive width and height. -/
theorem texture_size_stored (raw : GrBackendTexture T) (w h : Int) :
    (∀ (m : Bool) (i : GrMockTextureInfo) (l : String),
      (GrBackendTexture.ctorMock raw w h m i l).isValid = true ∧
      (GrBackendTexture.ctorMock raw w h m i l).fWidth = w ∧
      (GrBackendTexture.ctorMock raw w h m i l).fHeight = h) ∧
    (∀ (d : GrD3DTextureResourceInfo) (tok : Option Nat) (l : String),
      (GrBackendTexture.ctorD3D raw w h d tok l).isValid = true ∧
      (GrBackendTexture.ctorD3D raw w h d tok l).fWidth = w ∧
      (GrBackendTexture.ctorD3D raw w h d tok l).fHeight = h) ∧
    (∀ (cfg : Build) (ops : GrBackendTextureData T P S) (hp : D3DHeap)
        (a b : GrBackendTexture T) (r : GrBackendTexture T × D3DHeap),
      GrBackendTexture.operator_assign cfg ops hp false a b = .ok r → r.1.isValid = true →
      b.isValid = true ∧ r.1.fWidth = b.fWidth ∧ r.1.fHeight = b.fHeight) ∧
    (0 < w → 0 < h →
      ∀ (m : Bool) (i : GrMockTextureInfo) (l : String),
        0 < (GrBackendTexture.ctorMock raw w h m i l).fWidth ∧
        0 < (GrBackendTexture.ctorMock raw w h m i l).fHeight) := by
  refine ⟨fun _ _ _ => ⟨rfl, rfl, rfl⟩, fun _ _ _ => ⟨rfl, rfl, rfl⟩,
    fun cfg ops hp a b r hr hv => texture_assign_size cfg ops hp a b r hr hv,
    fun hw hh _ _ _ => ⟨hw, hh⟩⟩

/-- C18, amended, at a concrete input: a Mock texture built with width 4 and
height 3 has positive width and height. -/
theorem texture_size_stored_witness :
    (0 : Int) < (GrBackendTexture.ctorMock rawTexture 4 3 false (mockTextureInfo 7) "").fWidth ∧
    (0 : Int) < (GrBackendTexture.ctorMock rawTexture 4 3 false (mockTextureInfo 7) "").fHeight :=
  (texture_size_stored (P := Nat) (S := Nat) rawTexture 4 3).2.2.2 (by decide) (by decide)
    false (mockTextureInfo 7) ""

end Texture

section MockEquality

variable {P D : Type}

open GrBackendFormat

/-- C20: on valid Mock formats that satisfy the exactly-one-of-three invariant,
`a == b` returns true exactly when color type, compression type and stencil
flag are all three equal, so the equality that omits the stencil flag coincides
with full structural equality of the Mock fields. Two valid Mock formats that
compare equal and differ in the stencil flag cannot both satisfy the
invariant. -/
theorem operator_eq_mock_structural (cfg : Build) (ops : GrBackendFormatData P D)
    (a b : GrBackendFormat P) (ha : a.isValid = true) (hb : b.isValid = true)
    (hta : a.backend = GrBackendApi.kMock) (htb : b.backend = GrBackendApi.kMock) :
    (validateMock a = true → validateMock b = true →
      operator_eq cfg ops a b = .ok (decide (mockFieldsEqual a b)) ∧
      (operator_eq cfg ops a b = .ok true ↔ mockFieldsEqual a b)) ∧
    (operator_eq cfg ops a b = .ok true →
      a.fMock.fIsStencilFormat ≠ b.fMock.fIsStencilFormat →
      ¬ (validateMock a = true ∧ validateMock b = true)) := by
  simp only [isValid, backend] at ha hb hta htb
  have h1 : operator_eq cfg ops a b
      = .ok (decide (a.fMock.fColorType = b.fMock.fColorType ∧
                     a.fMock.fCompressionType = b.fMock.fCompressionType)) := by
    simp [operator_eq, ha, hb, hta, htb, Bool.decide_and]
    rfl
  have key : validateMock a = true → validateMock b = true →
      a.fMock.fColorType = b.fMock.fColorType →
      a.fMock.fCompressionType = b.fMock.fCompressionType →
      a.fMock.fIsStencilFormat = b.fMock.fIsStencilFormat := by
    intro hia hib hc hk
    rw [validateMock_eq_true_iff] at hia hib
    unfold MockFormat.exactlyOne at hia hib
    rw [← hc, ← hk] at hib
    rcases hia with ⟨h1, h2, h3⟩ | ⟨h1, h2, h3⟩ | ⟨h1, h2, h3⟩ <;>
      rcases hib with ⟨g1, g2, g3⟩ | ⟨g1, g2, g3⟩ | ⟨g1, g2, g3⟩ <;>
      first
        | exact absurd g1 h1
        | exact absurd h1 g1
        | exact absurd g2 h2
        | exact absurd h2 g2
        | exact h3.trans g3.symm
  refine ⟨fun hia hib => ?_, fun heq hne hinv => ?_⟩
  · have hiff : (a.fMock.fColorType = b.fMock.fColorType ∧
        a.fMock.fCompressionType = b.fMock.fCompressionType) ↔ mockFieldsEqual a b := by
      unfold mockFieldsEqual
      exact ⟨fun ⟨hc, hk⟩ => ⟨hc, hk, key hia hib hc hk⟩, fun ⟨hc, hk, _⟩ => ⟨hc, hk⟩⟩
    refine ⟨?_, ?_⟩
    · rw [h1]; congr 1; exact decide_eq_decide.mpr hiff
    · rw [h1, ← hiff]; simp
  · rw [h1] at heq
    have hck : a.fMock.fColorType = b.fMock.fColorType ∧
        a.fMock.fCompressionType = b.fMock.fCompressionType := by simpa using heq
    exact hne (key hinv.1 hinv.2 hck.1 hck.2)

/-- C20 at a concrete input: two stencil Mock formats, which satisfy the
invariant and agree on all three fields, compare equal. -/
theorem operator_eq_mock_structural_witness :
    operator_eq releaseBuild natFormatData (mockFormat .kUnknown .kNone true)
        (mockFormat .kUnknown .kNone true) = .ok true :=
  (((operator_eq_mock_structural releaseBuild natFormatData (mockFormat .kUnknown .kNone true)
    (mockFormat .kUnknown .kNone true) rfl rfl rfl rfl).1 rfl rfl).2).2 ⟨rfl, rfl, rfl⟩

end MockEquality

section Direct3D

variable {T P S : Type}

/-- Taking a reference to a token leaves every resource state as it is. -/
theorem stateAt_safeRef (h : D3DHeap) (p : Option Nat) (x : Nat) :
    (h.safeRef p).stateAt x = h.stateAt x := by
  cases p with
  | none => rfl
  | some a =>
    simp only [D3DHeap.safeRef, D3DHeap.stateAt, D3DHeap.modify]
    by_cases hx : x = a
    · subst hx; cases h.cells x <;> simp
    · simp [hx]

/-- Dropping a reference to a token leaves every resource state as it is. -/
theorem stateAt_safeUnref (h : D3DHeap) (p : Option Nat) (x : Nat) :
    (h.safeUnref p).stateAt x = h.stateAt x := by
  cases p with
  | none => rfl
  | some a =>
    simp only [D3DHeap.safeUnref, D3DHeap.stateAt, D3DHeap.modify]
    by_cases hx : x = a
    · subst hx; cases h.cells x <;> simp
    · simp [hx]

/-- The member `cleanup()` of a texture leaves every resource state as it is. -/
theorem stateAt_texture_cleanup (cfg : Build) (h : D3DHeap) (t : GrBackendTexture T) (x : Nat) :
    (GrBackendTexture.cleanup cfg h t).2.stateAt x = h.stateAt x := by
  unfold GrBackendTexture.cleanup
  simp only []
  split
  · exact stateAt_safeUnref h _ x
  · rfl

/-- The release step of the assignment leaves every resource state as it is. -/
theorem stateAt_texture_release (cfg : Build) (h : D3DHeap) (a b : GrBackendTexture T)
    (x : Nat) :
    (GrBackendTexture.releaseOnBackendChange cfg h a b).2.stateAt x = h.stateAt x := by
  unfold GrBackendTexture.releaseOnBackendChange
  split
  · exact stateAt_texture_cleanup cfg h a x
  · rfl

/-- The member `assign` of the inline Direct3D info leaves every resource state
as it is. -/
theorem stateAt_info_assign (this that : GrD3DBackendSurfaceInfo) (h : D3DHeap) (v : Bool)
    (x : Nat) : (this.assign h that v).2.stateAt x = h.stateAt x := by
  unfold GrD3DBackendSurfaceInfo.assign
  simp only []
  split
  · rw [stateAt_safeUnref, stateAt_safeRef]
  · rw [stateAt_safeRef]

/-- Assigning a valid Direct3D texture in a Direct3D build: the assignment
returns, the object assigned to is a valid Direct3D texture with the resource
info and the token pointer of the source, and every resource state is as it
was. -/
theorem texture_assign_d3d (cfg : Build) (ops : GrBackendTextureData T P S) (h : D3DHeap)
    (a b : GrBackendTexture T) (hd : cfg.SK_DIRECT3D = true) (hv : b.fIsValid = true)
    (ht : b.fBackend = GrBackendApi.kDirect3D) :
    ∃ r, GrBackendTexture.operator_assign cfg ops h false a b = .ok r ∧
      r.1.fIsValid = true ∧ r.1.fBackend = GrBackendApi.kDirect3D ∧
      r.1.fD3DInfo = b.fD3DInfo ∧ ∀ x, r.2.stateAt x = h.stateAt x := by
  refine ⟨({ (GrBackendTexture.releaseOnBackendChange cfg h a b).1 with
              fWidth := b.fWidth, fHeight := b.fHeight, fMipmapped := b.fMipmapped,
              fBackend := b.fBackend, fTextureType := b.fTextureType,
              fD3DInfo := b.fD3DInfo, fIsValid := true },
           ((GrBackendTexture.releaseOnBackendChange cfg h a b).1.fD3DInfo.assign
              (GrBackendTexture.releaseOnBackendChange cfg h a b).2 b.fD3DInfo
              (GrBackendTexture.releaseOnBackendChange cfg h a b).1.fIsValid).2), ?_, rfl, ht, rfl,
    fun x => ?_⟩
  · simp [GrBackendTexture.operator_assign, GrBackendTexture.isValid, hv, ht, hd,
      GrD3DBackendSurfaceInfo.assign]
  · rw [stateAt_info_assign, stateAt_texture_release]

/-- Two valid Direct3D textures that point to the same live token: an update
through the first is observed through the second. -/
theorem observes_same_token (h : D3DHeap) (x y : GrBackendTexture T) (a : Nat)
    (c : GrD3DResourceState)
    (hx : x.fIsValid = true) (bx : x.fBackend = GrBackendApi.kDirect3D)
    (tx : x.fD3DInfo.fResourceState = some a)
    (hy : y.fIsValid = true) (hby : y.fBackend = GrBackendApi.kDirect3D)
    (ty : y.fD3DInfo.fResourceState = some a)
    (hl : h.cells a = some c) : observesUpdates h x y := by
  intro s out
  refine ⟨h.modify a (fun c => { c with fResourceState := s }), ?_,
    { y.fD3DInfo.fTextureResourceInfo with fResourceState := s }, ?_, rfl⟩
  · simp [GrBackendTexture.setD3DResourceState, GrBackendTexture.isValid, hx, bx,
      GrD3DBackendSurfaceInfo.setResourceState, tx, hl]
  · simp [GrBackendTexture.getD3DTextureResourceInfo, GrBackendTexture.isValid, hy, hby,
      GrD3DBackendSurfaceInfo.snapTextureResourceInfo, GrD3DBackendSurfaceInfo.readState, ty,
      D3DHeap.modify, hl]

/-- Two valid Direct3D textures that point to different live tokens: an update
through the first is not observed through the second. -/
theorem ignores_other_token (h : D3DHeap) (x y : GrBackendTexture T) (a b : Nat)
    (c c' : GrD3DResourceState)
    (hx : x.fIsValid = true) (bx : x.fBackend = GrBackendApi.kDirect3D)
    (tx : x.fD3DInfo.fResourceState = some a)
    (hy : y.fIsValid = true) (hby : y.fBackend = GrBackendApi.kDirect3D)
    (ty : y.fD3DInfo.fResourceState = some b)
    (hab : b ≠ a) (hl : h.cells a = some c) (hl' : h.cells b = some c') :
    ignoresUpdates h x y c'.fResourceState := by
  intro s out
  refine ⟨h.modify a (fun c => { c with fResourceState := s }), ?_, ?_,
    { y.fD3DInfo.fTextureResourceInfo with fResourceState := c'.fResourceState }, ?_, rfl⟩
  · simp [GrBackendTexture.setD3DResourceState, GrBackendTexture.isValid, hx, bx,
      GrD3DBackendSurfaceInfo.setResourceState, tx, hl]
  · simp [GrBackendTexture.getD3DTextureResourceInfo, GrBackendTexture.isValid, hy, hby,
      GrD3DBackendSurfaceInfo.snapTextureResourceInfo, GrD3DBackendSurfaceInfo.readState, ty,
      D3DHeap.modify, hab, hl']
  · simp [GrBackendTexture.getD3DTextureResourceInfo, GrBackendTexture.isValid, hy, hby,
      GrD3DBackendSurfaceInfo.snapTextureResourceInfo, GrD3DBackendSurfaceInfo.readState, ty,
      hl']

/-- C19: Direct3D copies alias one resource-state token. In a Direct3D build,
for a valid Direct3D texture `t` whose token is live, the copy made by the copy
constructor and the copy made by assigning `t` over any texture `d` are such
that a resource-state update applied through the copy is observed when reading
through `t`, and one applied through `t` is observed when reading through the
copy. A Direct3D texture built from the resource info of `t` with its own
freshly allocated token does not observe updates made through `t`: it keeps
reporting the initial state of the resource info. -/
theorem d3d_copies_share_state (cfg : Build) (ops : GrBackendTextureData T P S) (h : D3DHeap)
    (raw t : GrBackendTexture T) (a : Nat) (cell : GrD3DResourceState)
    (hd : cfg.SK_DIRECT3D = true) (hv : t.isValid = true)
    (hb : t.backend = GrBackendApi.kDirect3D) (htok : t.fD3DInfo.fResourceState = some a)
    (hlive : h.cells a = some cell) (hwf : h.WellFormed) :
    (∃ c h1, GrBackendTexture.copy cfg ops h raw t = .ok (c, h1) ∧
      observesUpdates h1 c t ∧ observesUpdates h1 t c) ∧
    (∀ d : GrBackendTexture T,
      ∃ c h1, GrBackendTexture.operator_assign cfg ops h false d t = .ok (c, h1) ∧
        observesUpdates h1 c t ∧ observesUpdates h1 t c) ∧
    (∀ (w ht : Int) (l : String),
      ignoresUpdates
        (GrBackendTexture.ctorD3DFresh h raw w ht t.fD3DInfo.fTextureResourceInfo l).2 t
        (GrBackendTexture.ctorD3DFresh h raw w ht t.fD3DInfo.fTextureResourceInfo l).1
        t.fD3DInfo.fTextureResourceInfo.fResourceState) := by
  simp only [GrBackendTexture.isValid, GrBackendTexture.backend] at hv hb
  have assigned : ∀ d : GrBackendTexture T,
      ∃ c h1, GrBackendTexture.operator_assign cfg ops h false d t = .ok (c, h1) ∧
        observesUpdates h1 c t ∧ observesUpdates h1 t c := by
    intro d
    obtain ⟨r, hr, rv, rb, ri, rs⟩ := texture_assign_d3d cfg ops h d t hd hv hb
    have hst : r.2.stateAt a = some cell.fResourceState := by
      rw [rs a]; simp [D3DHeap.stateAt, hlive]
    obtain ⟨c1, hc1, _⟩ : ∃ c1, r.2.cells a = some c1 ∧ c1.fResourceState = cell.fResourceState := by
      simpa [D3DHeap.stateAt] using hst
    have rtok : r.1.fD3DInfo.fResourceState = some a := by rw [ri]; exact htok
    exact ⟨r.1, r.2, hr, observes_same_token r.2 r.1 t a c1 rv rb rtok hv hb htok hc1,
      observes_same_token r.2 t r.1 a c1 hv hb htok rv rb rtok hc1⟩
  refine ⟨assigned _, assigned, fun w ht l => ?_⟩
  have hne : h.next ≠ a := fun e => absurd (hwf a cell hlive) (by omega)
  have hane : a ≠ h.next := fun e => hne e.symm
  exact ignores_other_token _ t _ a h.next cell
    { fResourceState := t.fD3DInfo.fTextureResourceInfo.fResourceState, fRefCnt := 1 }
    hv hb htok rfl rfl rfl hne
    (by simp [GrBackendTexture.ctorD3DFresh, D3DHeap.alloc, hane, hlive])
    (by simp [GrBackendTexture.ctorD3DFresh, D3DHeap.alloc])

/-- C19 at a concrete input: the copy of a Direct3D texture built in empty token
memory shares its token, so updates are observed in both directions. -/
theorem d3d_copies_share_state_witness :
    ∃ c h1, GrBackendTexture.copy debugBuild boolTextureData d3dHeap1 rawTexture d3dTexture1
        = .ok (c, h1) ∧
      observesUpdates h1 c d3dTexture1 ∧ observesUpdates h1 d3dTexture1 c :=
  (d3d_copies_share_state debugBuild boolTextureData d3dHeap1 rawTexture d3dTexture1 0
    { fResourceState := 2, fRefCnt := 1 } rfl rfl rfl rfl rfl
    (by
      intro a c hc
      simp only [d3dHeap1, GrBackendTexture.ctorD3DFresh, D3DHeap.alloc, emptyHeap] at hc ⊢
      split at hc
      · omega
      · cases hc)).1

end Direct3D

section InlineEquality

variable {P D : Type}

open GrBackendFormat

/-- The format `operator==` does not read the texture type. -/
theorem operator_eq_textureType (cfg : Build) (ops : GrBackendFormatData P D)
    (a b : GrBackendFormat P) (t t' : GrTextureType) :
    operator_eq cfg ops { a with fTextureType := t } { b with fTextureType := t' }
      = operator_eq cfg ops a b := rfl

/-- On formats tagged Mock or Direct3D, `operator==` returns true exactly when
both are valid, the tags are equal and the inline field of the tag is equal
(color type and compression type for Mock; the format code for Direct3D, in a
Direct3D build). -/
theorem operator_eq_inline_true_iff (cfg : Build) (ops : GrBackendFormatData P D)
    (a b : GrBackendFormat P)
    (ha : a.fBackend = GrBackendApi.kMock ∨ a.fBackend = GrBackendApi.kDirect3D) :
    operator_eq cfg ops a b = .ok true ↔
      a.fValid = true ∧ b.fValid = true ∧ a.fBackend = b.fBackend ∧
      ((a.fBackend = GrBackendApi.kMock ∧ a.fMock.fColorType = b.fMock.fColorType ∧
          a.fMock.fCompressionType = b.fMock.fCompressionType) ∨
        (a.fBackend = GrBackendApi.kDirect3D ∧ cfg.SK_DIRECT3D = true ∧
          a.fDxgiFormat = b.fDxgiFormat)) := by
  unfold operator_eq
  rcases ha with ha | ha <;> cases hva : a.fValid <;> cases hvb : b.fValid <;>
    cases hd : cfg.SK_DIRECT3D <;> cases hb : b.fBackend <;> simp [ha]

/-- C21: `operator==` is a partial equivalence relation on formats with inline
data. For all formats `a`, `b` tagged Mock or Direct3D, valid or not, and every
format `c`, `a == b` implies `b == a`, and `a == b` with `b == c` implies
`a == c`. For a
Mock format, and for a Direct3D format in a build that has Direct3D, `a == a`
returns a value, which is true exactly when `a` is valid. The texture type is
not read: changing it on either side leaves the result as it is. -/
theorem operator_eq_partial_equivalence (cfg : Build) (ops : GrBackendFormatData P D)
    (a b c : GrBackendFormat P)
    (ha : a.backend = GrBackendApi.kMock ∨ a.backend = GrBackendApi.kDirect3D)
    (hb : b.backend = GrBackendApi.kMock ∨ b.backend = GrBackendApi.kDirect3D) :
    (operator_eq cfg ops a b = .ok true → operator_eq cfg ops b a = .ok true) ∧
    (operator_eq cfg ops a b = .ok true → operator_eq cfg ops b c = .ok true →
      operator_eq cfg ops a c = .ok true) ∧
    (a.backend = GrBackendApi.kMock ∨ cfg.SK_DIRECT3D = true →
      operator_eq cfg ops a a = .ok (a.isValid) ∧
      (operator_eq cfg ops a a = .ok true ↔ a.isValid = true)) ∧
    (∀ t t' : GrTextureType,
      operator_eq cfg ops { a with fTextureType := t } { b with fTextureType := t' }
        = operator_eq cfg ops a b) := by
  simp only [backend, isValid] at ha hb ⊢
  refine ⟨?_, ?_, ?_, fun t t' => operator_eq_textureType cfg ops a b t t'⟩
  · intro h
    rw [operator_eq_inline_true_iff cfg ops a b ha] at h
    rw [operator_eq_inline_true_iff cfg ops b a hb]
    obtain ⟨hva, hvb, hab, h | h⟩ := h
    · exact ⟨hvb, hva, hab.symm, Or.inl ⟨hab ▸ h.1, h.2.1.symm, h.2.2.symm⟩⟩
    · exact ⟨hvb, hva, hab.symm, Or.inr ⟨hab ▸ h.1, h.2.1, h.2.2.symm⟩⟩
  · intro h1 h2
    rw [operator_eq_inline_true_iff cfg ops a b ha] at h1
    rw [operator_eq_inline_true_iff cfg ops b c hb] at h2
    rw [operator_eq_inline_true_iff cfg ops a c ha]
    obtain ⟨hva, _, hab, h1 | h1⟩ := h1 <;> obtain ⟨_, hvc, hbc, h2 | h2⟩ := h2
    · exact ⟨hva, hvc, hab.trans hbc,
        Or.inl ⟨h1.1, h1.2.1.trans h2.2.1, h1.2.2.trans h2.2.2⟩⟩
    · exact absurd (h1.1.symm.trans (hab.trans h2.1)) (by decide)
    · exact absurd (h1.1.symm.trans (hab.trans h2.1)) (by decide)
    · exact ⟨hva, hvc, hab.trans hbc, Or.inr ⟨h1.1, h1.2.1, h1.2.2.trans h2.2.2⟩⟩
  · intro hbuild
    have hval : operator_eq cfg ops a a = .ok a.fValid := by
      unfold operator_eq
      rcases ha with ha | ha
      · cases hva : a.fValid <;> simp [ha]
      · rcases hbuild with hm | hd
        · rw [ha] at hm; cases hm
        · cases hva : a.fValid <;> simp [ha, hd]
    refine ⟨hval, ?_⟩
    rw [hval]
    simp

/-- C21 at concrete inputs: equality of two Mock formats in both directions, and
an invalid Mock-tagged format that is not equal to itself. -/
theorem operator_eq_partial_equivalence_witness :
    operator_eq releaseBuild natFormatData (mockFormat (.other 1) .kNone true)
        (mockFormat (.other 1) .kNone false) = .ok true ∧
    (operator_eq releaseBuild natFormatData rawFormat rawFormat = .ok true ↔
      rawFormat.isValid = true) :=
  ⟨(operator_eq_partial_equivalence releaseBuild natFormatData
      (mockFormat (.other 1) .kNone false) (mockFormat (.other 1) .kNone true) rawFormat
      (Or.inl rfl) (Or.inl rfl)).1 rfl,
   ((operator_eq_partial_equivalence releaseBuild natFormatData rawFormat rawFormat rawFormat
      (Or.inl rfl) (Or.inl rfl)).2.2.1 (Or.inl rfl)).2⟩

end InlineEquality

section Label

variable {T P S : Type}

/-- The member `cleanup()` of a texture leaves the label as it is. -/
theorem texture_cleanup_label (cfg : Build) (h : D3DHeap) (a : GrBackendTexture T) :
    (GrBackendTexture.cleanup cfg h a).1.fLabel = a.fLabel := by
  unfold GrBackendTexture.cleanup
  simp only []
  split <;> rfl

/-- The release step of the assignment leaves the label as it is. -/
theorem texture_release_label (cfg : Build) (h : D3DHeap) (a b : GrBackendTexture T) :
    (GrBackendTexture.releaseOnBackendChange cfg h a b).1.fLabel = a.fLabel := by
  unfold GrBackendTexture.releaseOnBackendChange
  split
  · exact texture_cleanup_label cfg h a
  · rfl

/-- Whenever the assignment of textures returns, the label of the object
assigned to is the one it had. -/
theorem texture_assign_label (cfg : Build) (ops : GrBackendTextureData T P S) (h : D3DHeap)
    (s : Bool) (a b : GrBackendTexture T) (r : GrBackendTexture T × D3DHeap)
    (hr : GrBackendTexture.operator_assign cfg ops h s a b = .ok r) :
    r.1.fLabel = a.fLabel := by
  unfold GrBackendTexture.operator_assign at hr
  cases s <;> cases hv : b.fIsValid <;> cases hb : b.fBackend <;> cases hp : b.fTextureData <;>
    cases hd : cfg.SK_DIRECT3D <;>
    simp [GrBackendTexture.isValid, hv, hb, hp, hd] at hr <;>
    simp [← hr, texture_cleanup_label, texture_release_label]

/-- C22: the copy-assignment of textures neither reads nor writes the debug
label. Whenever `a = b` returns, the label of `a` is the label `a` had before,
whatever the label of `b`; the result is the same for every label `b` could
carry. So whatever the copy constructor returns has the default empty label:
the copy of a Mock texture constructed with any label `l` is a valid texture
with the empty label. -/
theorem operator_assign_label (cfg : Build) (ops : GrBackendTextureData T P S) (h : D3DHeap)
    (raw a b : GrBackendTexture T) :
    (∀ (s : Bool) (r : GrBackendTexture T × D3DHeap),
      GrBackendTexture.operator_assign cfg ops h s a b = .ok r → r.1.fLabel = a.fLabel) ∧
    (∀ (s : Bool) (l : String),
      GrBackendTexture.operator_assign cfg ops h s a { b with fLabel := l }
        = GrBackendTexture.operator_assign cfg ops h s a b) ∧
    (∀ r : GrBackendTexture T × D3DHeap,
      GrBackendTexture.copy cfg ops h raw b = .ok r → r.1.fLabel = "") ∧
    (∀ (w ht : Int) (m : Bool) (i : GrMockTextureInfo) (l : String),
      (GrBackendTexture.ctorMock raw w ht m i l).fLabel = l ∧
      ∃ r, GrBackendTexture.copy cfg ops h raw (GrBackendTexture.ctorMock raw w ht m i l)
          = .ok r ∧
        r.1.isValid = true ∧ r.1.fLabel = "") := by
  refine ⟨fun s r hr => texture_assign_label cfg ops h s a b r hr, fun s l => rfl,
    fun r hr => ?_, fun w ht m i l => ⟨rfl, ?_⟩⟩
  · unfold GrBackendTexture.copy at hr
    exact texture_assign_label cfg ops h false _ b r hr
  · unfold GrBackendTexture.copy
    refine ⟨_, texture_assign_mock cfg ops h _ _ rfl rfl, rfl, ?_⟩
    exact texture_release_label cfg h _ _

/-- C22 at concrete inputs: assigning a Mock texture labelled "b" over one
labelled "a" leaves the label "a", and the copy of a Mock texture labelled "b"
has the empty label. -/
theorem operator_assign_label_witness :
    (∃ r, GrBackendTexture.operator_assign releaseBuild boolTextureData emptyHeap false
          (GrBackendTexture.ctorMock rawTexture 4 3 false (mockTextureInfo 1) "a")
          (GrBackendTexture.ctorMock rawTexture 8 8 true (mockTextureInfo 2) "b") = .ok r ∧
        r.1.fLabel = "a") ∧
    ((GrBackendTexture.ctorMock rawTexture 8 8 true (mockTextureInfo 2) "b").fLabel = "b" ∧
      ∃ r, GrBackendTexture.copy releaseBuild boolTextureData emptyHeap rawTexture
            (GrBackendTexture.ctorMock rawTexture 8 8 true (mockTextureInfo 2) "b") = .ok r ∧
        r.1.isValid = true ∧ r.1.fLabel = "") :=
  ⟨⟨_, rfl,
      (operator_assign_label releaseBuild boolTextureData emptyHeap rawTexture
        (GrBackendTexture.ctorMock rawTexture 4 3 false (mockTextureInfo 1) "a")
        (GrBackendTexture.ctorMock rawTexture 8 8 true (mockTextureInfo 2) "b")).1 false _ rfl⟩,
   (operator_assign_label releaseBuild boolTextureData emptyHeap rawTexture rawTexture
      rawTexture).2.2.2 8 8 true (mockTextureInfo 2) "b"⟩

end Label

end GrBackendSurface
